import Mathlib

/-!
Verification of the RXtoRINEX V2.0 core against its specification.

This file shallowly embeds the parts of the C++ sources relevant to the
checked claims and proves (or refutes) the claimed properties:

* `Utilities.cpp`: `getBits`, `getTwosComplement` (bit primitives);
* `OSPMessage.cpp`: `fill` (stripped-mode message reader);
* `GNSSdataFromOSP.cpp`: the GPS nav-subframe assembler
  (`getMID8GPSNavData`, `allGPSEphemReceived`, `extractGPSEphemeris`,
  `checkGPSparity`), the fit-interval lookup of `scaleGPSEphemeris`, and
  the clock-bias application of `acqEpochData`;
* `RinexData.cpp`: `saveObsData`, `saveNavData`, `setFilter`,
  `filterObsData` and the V2.10 epoch-header layout of `printObsEpoch`.

C `unsigned int` values are modelled as `Nat` (with explicit `% 2^32`
or masks where the code relies on 32-bit wrap), C `int` as `Int`, and
C `double` as `Rat` (all double computations reached by the claims are
exact field operations on decimal constants).
-/

namespace RXtoRINEX

/-! ### Utilities.cpp -/

/-- One bit of the 32-bit-word bit stream: bit `i % 32` of word `i / 32`,
mirroring `(stream[i/32] >> i%32) & 0x01` in `getBits` (Utilities.cpp:286). -/
def streamBit (stream : Nat → Nat) (i : Nat) : Nat :=
  (stream (i / 32) >>> (i % 32)) &&& 1

/-- `getBits` (Utilities.cpp:283-289): extracts `len` bits starting at
`bitpos` from the 32-bit-word stream; the C loop accumulates
`bits = (bits << 1) | bit(i)` for `i = bitpos+len-1 … bitpos`, i.e. the
stream bit `bitpos + k` lands in bit `k` of the result. -/
def getBits (stream : Nat → Nat) (bitpos : Nat) : Nat → Nat
  | 0 => 0
  | n + 1 => getBits stream (bitpos + 1) n * 2 + streamBit stream bitpos

/-- The C cast from `unsigned int` to `int` (two's complement, 32 bits). -/
def uintToInt32 (n : Nat) : Int :=
  if n % 2 ^ 32 < 2 ^ 31 then ((n % 2 ^ 32 : Nat) : Int)
  else ((n % 2 ^ 32 : Nat) : Int) - 2 ^ 32

/-- The C conversion from `int` to `unsigned int` (reduction mod `2^32`),
applied when an `int` value is passed for an `unsigned int` parameter. -/
def intToUint (v : Int) : Nat := (v % 2 ^ 32).toNat

/-- `getTwosComplement` (Utilities.cpp:229-234): widens a two's-complement
value of `nbits` bits to a 32-bit `int`.  `value = (int) number`; numbers
with `nbits >= 32` are returned as is, numbers below `2^(nbits-1)` are
positive and returned as is, the rest get `2^nbits` subtracted.
(The C shift `1 << (nbits-1)` requires `nbits >= 1`.) -/
def getTwosComplement (number : Nat) (nbits : Nat) : Int :=
  let value := uintToInt32 number
  if 32 ≤ nbits then value
  else if number < 2 ^ (nbits - 1) then value
  else value - 2 ^ nbits

/-- `getSigned` (Utilities.cpp:245-253): sign-and-magnitude widening;
if the sign bit is set the value is `-(number - signMask)`. -/
def getSigned (number : Nat) (nbits : Nat) : Int :=
  let value := uintToInt32 number
  if nbits ≤ 32 ∧ 0 < nbits then
    let signMask := 2 ^ (nbits - 1)
    if number &&& signMask ≠ 0 then - (uintToInt32 (number - signMask)) else value
  else value

/-! ### OSPMessage.cpp -/

/-- `MAXPAYLOADSIZE` (OSPMessage.h). -/
def MAXPAYLOADSIZE : Nat := 2048

/-- `OSPMessage::fill` (OSPmessage.cpp:31-42), stripped mode: the byte
source is a list of bytes; the first two bytes are the big-endian payload
length; a length above `MAXPAYLOADSIZE` is rejected, and a short read of
the payload fails.  Returns `(ok, payloadLength, payload)`. -/
def fill (input : List Nat) : Bool × Nat × List Nat :=
  match input with
  | b0 :: b1 :: rest =>
    let payloadLength := (b0 <<< 8) ||| b1
    if payloadLength > MAXPAYLOADSIZE then (false, payloadLength, [])
    else if rest.length < payloadLength then (false, payloadLength, [])
    else (true, payloadLength, rest.take payloadLength)
  | _ => (false, 0, [])

/-! ### GNSSdataFromOSP.cpp: fit interval (scaleGPSEphemeris) -/

/-- The fit-interval computation of `scaleGPSEphemeris`
(GNSSdataFromOSP.cpp:1179-1187): `bom[7][1]` is the fit flag and
`iodc = bom[6][3]`; flag 0 gives 4 hours, otherwise the IODC ranges
240-247 → 8, 248-255 → 14, 496 → 14, 497-503 → 26, 1021-1023 → 26,
anything else → 6. -/
def fitInterval (fitFlag : Int) (iodc : Int) : Rat :=
  if fitFlag = 0 then 4
  else if 240 ≤ iodc ∧ iodc ≤ 247 then 8
  else if 248 ≤ iodc ∧ iodc ≤ 255 then 14
  else if iodc = 496 then 14
  else if 497 ≤ iodc ∧ iodc ≤ 503 then 26
  else if 1021 ≤ iodc ∧ iodc ≤ 1023 then 26
  else 6

/-! ### GNSSdataFromOSP.cpp: clock-bias application (acqEpochData) -/

/-- `C1CADJ` (GNSSdataFromOSP.h): the speed of light, used to adjust C1C. -/
def C1CADJ : Rat := 299792458

/-- `L1CADJ` (GNSSdataFromOSP.h): the L1 carrier frequency, to adjust L1C. -/
def L1CADJ : Rat := 1575420000

/-- `L1WLINV` (GNSSdataFromOSP.h): inverse of the L1 wave length. -/
def L1WLINV : Rat := 1575420000 / 299792458

/-- One entry of the channel-observation buffer `chSatObs`
(`ChannelObs`): the raw observables of one satellite, in receiver units. -/
structure ChannelObs where
  psedrng : Rat
  carrPh : Rat
  carrFq : Rat
  signalStrg : Rat
  deriving DecidableEq

/-- The four observable values saved for one channel by the MID 7 branch of
`acqEpochData` (GNSSdataFromOSP.cpp:204-217): each value is converted to
RINEX units and, when `applyBias` is set and the converted value is not
exactly zero, reduced by the bias-derived correction. -/
structure SavedObservables where
  c1c : Rat
  l1c : Rat
  d1c : Rat
  s1c : Rat
  deriving DecidableEq

/-- The epoch-closing conversion of `acqEpochData` for one channel
(GNSSdataFromOSP.cpp:204-217). -/
def epochObservables (applyBias : Bool) (epochClkBias epochClkDrift : Rat)
    (c : ChannelObs) : SavedObservables :=
  let c1c := c.psedrng
  let c1c := if applyBias ∧ c1c ≠ 0 then c1c - epochClkBias * C1CADJ else c1c
  let l1c := c.carrPh * L1WLINV
  let l1c := if applyBias ∧ l1c ≠ 0 then l1c - epochClkBias * L1CADJ else l1c
  let d1c := c.carrFq * L1WLINV
  let d1c := if applyBias ∧ d1c ≠ 0 then d1c - epochClkDrift else d1c
  ⟨c1c, l1c, d1c, c.signalStrg⟩

/-! ### RinexData.h / RinexData.cpp: data model -/

/-- `RinexData::GNSSsystem` (RinexData.h:367-380): one GNSS system of the
header, with its observable-type codes and the selection flags used by the
filter. -/
structure GNSSsystem where
  system : Char
  selSystem : Bool
  obsType : List String
  selObsType : List Bool
  selSat : List Int
  deriving DecidableEq, Inhabited

/-- `RinexData::SatObsData` (RinexData.h:521-538): one observable of the
epoch store.  `sysIndex` and `obsTypeIndex` are C `int`s but are always
valid vector indexes when stored, so they are modelled as `Nat`. -/
structure SatObsData where
  obsTimeTag : Rat
  sysIndex : Nat
  satellite : Int
  obsTypeIndex : Nat
  obsValue : Rat
  lossOfLock : Int
  strength : Int
  deriving DecidableEq

/-- `RinexData::SatNavData` (RinexData.h:556-581): one navigation record,
with the 8×4 broadcast-orbit matrix as payload. -/
structure SatNavData where
  navTimeTag : Rat
  systemId : Char
  satellite : Int
  broadcastOrbit : List (List Rat)
  deriving DecidableEq

/-- The `RinexData` members reached by the claims: the header systems, the
epoch observation store with its time tag, the navigation store, and the
filtering state set by `setFilter`. -/
structure RinexState where
  systems : List GNSSsystem
  epochTimeTag : Rat
  epochObs : List SatObsData
  epochNav : List SatNavData
  selectedSats : List String
  applyObsFilter : Bool
  applyNavFilter : Bool
  deriving DecidableEq

/-- The `systems[i]` access of the C++ code (index always in range at the
use sites; out of range yields the default system). -/
def sysAt (systems : List GNSSsystem) (i : Nat) : GNSSsystem := systems.getD i default

/-- `RinexData::sysInx` (RinexData.cpp:3449-3453): index of a system code
in the systems vector, `-1` when absent. -/
def sysInx (systems : List GNSSsystem) (sysCode : Char) : Int :=
  match systems.findIdx? (fun s => s.system == sysCode) with
  | some i => (i : Int)
  | none => -1

/-- The observable-type scan of `saveObsData` (RinexData.cpp:1205-1209):
first index of `obsType` in the system's observable-code list. -/
def findObsTypeIdx (obsTypes : List String) (obsType : String) : Option Nat :=
  obsTypes.findIdx? (fun t => t == obsType)

/-- `RinexData::saveObsData` (RinexData.cpp:1198-1214): when the epoch
store is empty the call's time tag becomes the epoch time tag; data are
pushed only when the tag matches the epoch tag and the system/observable
pair is declared in the header systems; the returned flag is `sameEpoch`,
true even when the data were dropped for an unknown system or observable. -/
def saveObsData (st : RinexState) (sys : Char) (sat : Int) (obsType : String)
    (value : Rat) (lol strg : Int) (tTag : Rat) : RinexState × Bool :=
  let sx := sysInx st.systems sys
  let st1 := if st.epochObs.isEmpty then { st with epochTimeTag := tTag } else st
  if st1.epochTimeTag = tTag then
    if 0 ≤ sx then
      match findObsTypeIdx (sysAt st1.systems sx.toNat).obsType obsType with
      | some ox =>
        ({ st1 with
            epochObs := st1.epochObs ++ [⟨tTag, sx.toNat, sat, ox, value, lol, strg⟩] },
          true)
      | none => (st1, true)
    else (st1, true)
  else (st1, false)

/-- The arguments of one `saveObsData` call. -/
structure ObsCall where
  sys : Char
  sat : Int
  obsType : String
  value : Rat
  lol : Int
  strg : Int
  tTag : Rat

/-- A sequence of `saveObsData` calls, applied in order. -/
def runSaveObs (st : RinexState) : List ObsCall → RinexState
  | [] => st
  | c :: cs =>
    runSaveObs (saveObsData st c.sys c.sat c.obsType c.value c.lol c.strg c.tTag).1 cs

/-- All records of the epoch store carry the epoch's time tag. -/
def sameTagInv (st : RinexState) : Prop :=
  ∀ r ∈ st.epochObs, r.obsTimeTag = st.epochTimeTag

/-- `RinexData::saveNavData` (RinexData.cpp:1402-1415): append the record
unless one with the same `(time, system, satellite)` key already exists. -/
def saveNavData (epochNav : List SatNavData) (sys : Char) (sat : Int)
    (bo : List (List Rat)) (tTag : Rat) : List SatNavData × Bool :=
  if epochNav.any (fun r => sys == r.systemId && sat == r.satellite && tTag == r.navTimeTag)
  then (epochNav, false)
  else (epochNav ++ [⟨tTag, sys, sat, bo⟩], true)

/-- The `sscanf("%c%d")` parse and `sprintf("%1c%02.2d")` normalization of
one selected-satellite token (`setFilter`, RinexData.cpp:1281-1293): an
empty token matches nothing and is ignored; a lone character selects a
whole system; a character followed by a number selects one satellite,
normalized to two digits. -/
def parseSatToken (tok : String) : Option String :=
  match tok.data with
  | [] => none
  | c :: rest =>
    match (String.mk rest).toInt? with
    | some n =>
      some (String.mk [c] ++ (if 0 ≤ n ∧ n < 10 then "0" ++ toString n else toString n))
    | none => some (String.mk [c])

/-- `RinexData::setFilter` (RinexData.cpp:1258-1364).  Resets all selection
flags, normalizes the selected-satellite tokens, verifies both token lists
against the header systems (collecting the indexes of selected systems and
observables), and recomputes the per-system / per-observable selection
flags.  Returns the updated state and `areCoherent`. -/
def setFilter (st : RinexState) (selSat selObs : List String) : RinexState × Bool :=
  -- reset selection data (lines 1268-1274)
  let sys0 := st.systems.map fun s =>
    { s with selSystem := true, selObsType := s.selObsType.map (fun _ => true) }
  let st0 := { st with
    systems := sys0
    selectedSats := ([] : List String)
    applyObsFilter := false
    applyNavFilter := false }
  if selSat.isEmpty ∧ selObs.isEmpty then (st0, true)
  else
    -- 1st: normalized selected satellites (lines 1281-1293)
    let selectedSats := selSat.filterMap parseSatToken
    let applyNavFilter := !selectedSats.isEmpty
    -- 2nd: verify selected systems-satellites (lines 1301-1310);
    -- accumulate (systems with selSat pushed, inxSelSys, areCoherent)
    let acc1 := selectedSats.foldl
      (fun (a : List GNSSsystem × List Nat × Bool) tok =>
        let sysIdx := sysInx a.1 (tok.data.headD ' ')
        if sysIdx < 0 then (a.1, a.2.1, false)
        else
          let sys' := if tok.length > 1 then
              a.1.modify (fun s =>
                { s with selSat := s.selSat ++ [((tok.drop 1).toInt?.getD 0)] }) sysIdx.toNat
            else a.1
          (sys', a.2.1 ++ [sysIdx.toNat], a.2.2))
      (sys0, [], true)
    -- verify selected observables (lines 1312-1331);
    -- accumulate (inxSelSys, list of (sysIdx, obsIdx) pairs, areCoherent)
    let acc2 := selObs.foldl
      (fun (a : List Nat × List (Nat × Nat) × Bool) tok =>
        let sysIdx := sysInx acc1.1 (tok.data.headD ' ')
        if sysIdx < 0 then (a.1, a.2.1, false)
        else
          match findObsTypeIdx (sysAt acc1.1 sysIdx.toNat).obsType (tok.drop 1) with
          | some n => (a.1 ++ [sysIdx.toNat], a.2.1 ++ [(sysIdx.toNat, n)], a.2.2)
          | none => (a.1, a.2.1, false))
      (acc1.2.1, [], acc1.2.2)
    let inxSelSys := acc2.1
    let inxSysObs := acc2.2.1
    let areCoherent := acc2.2.2
    -- set flags for selected systems (lines 1333-1340)
    let sys1 := if inxSelSys.isEmpty then acc1.1
      else inxSelSys.foldl (fun s i => s.modify (fun g => { g with selSystem := true }) i)
        (acc1.1.map fun s => { s with selSystem := false })
    -- set flags for selected observables (lines 1342-1348)
    let sys2 := if inxSysObs.isEmpty then sys1
      else
        let cleared := inxSysObs.foldl
          (fun s p => s.modify (fun g =>
            { g with selObsType := g.selObsType.map fun _ => false }) p.1) sys1
        inxSysObs.foldl
          (fun s p => s.modify (fun g =>
            { g with selObsType := g.selObsType.set p.2 true }) p.1) cleared
    -- applyObsFilter is set in the logging loop (lines 1350-1362)
    let applyObsFilter := sys2.any (·.selSystem)
    ({ st0 with
        systems := sys2
        selectedSats := selectedSats
        applyNavFilter := applyNavFilter
        applyObsFilter := applyObsFilter },
      areCoherent)

/-- `RinexData::isSatSelected` (RinexData.cpp:3437-3442): an empty
per-system satellite list accepts every satellite. -/
def isSatSelected (systems : List GNSSsystem) (sysIx : Nat) (sat : Int) : Bool :=
  let s := sysAt systems sysIx
  s.selSat.isEmpty || s.selSat.any (· == sat)

/-- The removal predicate of `filterObsData` (RinexData.cpp:1375-1377),
complemented: a record is kept when its system is selected, its observable
type is selected and its satellite is selected. -/
def keepObs (systems : List GNSSsystem) (r : SatObsData) : Bool :=
  (sysAt systems r.sysIndex).selSystem &&
  ((sysAt systems r.sysIndex).selObsType.getD r.obsTypeIndex false) &&
  isSatSelected systems r.sysIndex r.satellite

/-- `SatObsData::operator<` (RinexData.h:540-552): ordering by time tag,
system index, satellite and observable-type index, used by `std::sort`. -/
def satObsLtB (a b : SatObsData) : Bool :=
  if a.obsTimeTag > b.obsTimeTag then false
  else if a.obsTimeTag < b.obsTimeTag then true
  else if a.sysIndex > b.sysIndex then false
  else if a.sysIndex < b.sysIndex then true
  else if a.satellite > b.satellite then false
  else if a.satellite < b.satellite then true
  else if a.obsTypeIndex > b.obsTypeIndex then false
  else true

/-- `RinexData::filterObsData` (RinexData.cpp:1370-1384): when an
observation filter is active, remove the records not selected; then sort
the store; return whether any data remain. -/
def filterObsData (st : RinexState) : RinexState × Bool :=
  let obs := if st.applyObsFilter then st.epochObs.filter (keepObs st.systems)
             else st.epochObs
  let obs := obs.mergeSort satObsLtB
  ({ st with epochObs := obs }, !obs.isEmpty)

/-! ### RinexData.cpp: V2.10 epoch-header layout of printObsEpoch

The `fprintf` calls of the V2.10 branch (RinexData.cpp:1620-1645) are
modelled as a stream of layout tokens, one token per format directive:
`time` is the formatted epoch date (`timeBuffer`), `flagSats` is
`"  %1d%3d"`, `sat` is one `"%1c%02d"` satellite triple, `clk` is the
`"%12.9f"` receiver clock offset, `blanks n` is `"%nc"` with a blank, and
`newline` is `"\n"`. -/

inductive Token where
  | time : Token
  | flagSats : Int → Nat → Token
  | sat : Char → Int → Token
  | clk : Token
  | blanks : Nat → Token
  | newline : Token
  deriving DecidableEq

/-- `DIFFERENT_SAT` (RinexData.cpp:1579-1581): two consecutive epoch
records belong to different satellites. -/
def differentSat (a b : SatObsData) : Bool :=
  a.sysIndex != b.sysIndex || a.satellite != b.satellite

/-- The satellite count of the epoch (RinexData.cpp:1622-1623): one plus
the number of consecutive-record satellite changes. -/
def countDiff : List SatObsData → SatObsData → Nat
  | [], _ => 0
  | o :: rest, prev => (if differentSat prev o then 1 else 0) + countDiff rest o

/-- The satellite loop of the V2.10 epoch first line
(RinexData.cpp:1630-1639): for every record starting a new satellite,
start a continuation line (newline plus `"%32c"`, i.e. 32 blank columns)
when twelve triples were already printed on the current line, print the
satellite triple, and print the clock offset right after the twelfth
triple.  `anInt` counts printed satellites, `clkPrinted` records whether
the clock offset was printed.  Returns the emitted tokens, the final
count and the final `clkPrinted` flag.  The tokens of one step are
factored out as `emitStep`: the tokens printed for one new satellite
(RinexData.cpp:1631-1638), prepended to the tokens `rec` of the following
iterations: the continuation-line start `"\n%32c"` when `anInt % 12 = 0`,
the satellite triple, and the clock offset right after the twelfth
triple (`anInt` is the count before this satellite is printed). -/
def emitStep (systems : List GNSSsystem) (o : SatObsData) (anInt : Nat)
    (rec : List Token) : List Token :=
  let satTok := Token.sat (sysAt systems o.sysIndex).system o.satellite
  let tail := if anInt + 1 = 12 then satTok :: Token.clk :: rec else satTok :: rec
  if anInt % 12 = 0 then Token.newline :: Token.blanks 32 :: tail else tail

def emitSats (systems : List GNSSsystem) :
    List SatObsData → SatObsData → Nat → Bool → List Token × Nat × Bool
  | [], _, anInt, ck => ([], anInt, ck)
  | o :: rest, prev, anInt, ck =>
    if differentSat prev o then
      let next := emitSats systems rest o (anInt + 1) (ck || (anInt + 1 = 12))
      (emitStep systems o anInt next.1, next.2)
    else emitSats systems rest o anInt ck

/-- The fill loop of RinexData.cpp:1640-1643: blank triples until the
count reaches a multiple of twelve. -/
def padTokens (anInt : Nat) : List Token :=
  List.replicate ((12 - anInt % 12) % 12) (Token.blanks 3)

/-- The V2.10 epoch first line with its continuation lines
(RinexData.cpp:1620-1645), starting from the sorted and V2-translated
epoch records (the branch returns before this point when the store is
empty).  After the satellite loop the line is blank-filled, and the final
newline closes the block: when the clock offset was already printed (12 or
more satellites) only `"\n"` is printed, otherwise `"%12.9f\n"`. -/
def printObsEpochHdV210 (systems : List GNSSsystem) (epochFlag : Int)
    (obs : List SatObsData) : List Token :=
  match obs.mergeSort satObsLtB with
  | [] => []
  | o :: rest =>
    let nSatsEpoch := 1 + countDiff rest o
    let loop := emitSats systems rest o 1 false
    Token.time :: Token.flagSats epochFlag nSatsEpoch ::
      Token.sat (sysAt systems o.sysIndex).system o.satellite ::
      (loop.1 ++ padTokens loop.2.1 ++
        (if loop.2.2 then [Token.newline] else [Token.clk, Token.newline]))

/-- Splitting a token stream into the printed lines: chunks between
newline tokens; the trailing chunk after the final newline is dropped. -/
def headerLines (ts : List Token) : List (List Token) :=
  (ts.splitOn Token.newline).dropLast

/-! ### GNSSdataFromOSP.cpp: GPS nav-subframe assembler -/

/-- `parityBitMask` (GNSSdataFromOSP.h): the bits of `D29 D30 d1 … d30`
participating in each of the six parity bits (GPS ICD 20.3.5.2). -/
def parityBitMask : List Nat :=
  [0xBB1F3480, 0x5D8F9A40, 0xAEC7CD00, 0x5763E680, 0x6BB1F340, 0x8B7A89C0]

/-- `bitsSet` (GNSSdataFromOSP.cpp:999-1003): number of bits set in the
32 LSB of the word. -/
def bitsSet (lw : Nat) : Nat :=
  (List.range 32).foldl (fun count i => count + ((lw >>> i) &&& 1)) 0

/-- `checkGPSparity` (GNSSdataFromOSP.cpp:973-981): a word has valid
parity when the six parity bits computed from the masked bit counts equal
its six LSB.  When D30 (bit 30) is set the lower 30 bits are complemented
first; the C `~d` on a 32-bit unsigned is `d ^^^ 0xFFFFFFFF` (the word is
a 32-bit payload value, below `2^32`). -/
def checkGPSparity (d : Nat) : Bool :=
  let toCheck := if d &&& 0x40000000 ≠ 0
    then (d &&& 0xC0000000) ||| ((d ^^^ 0xFFFFFFFF) &&& 0x3FFFFFFF)
    else d
  let parity := (List.range 6).foldl
    (fun parity i =>
      parity ||| ((bitsSet ((parityBitMask.getD i 0) &&& toCheck) % 2) <<< (5 - i)))
    0
  parity = (d &&& 0x3F)

/-- The parity-stripping step of `getMID8GPSNavData`
(GNSSdataFromOSP.cpp:663-665): keep the 24 data bits, complemented when
D30 (bit 30) is set; the C `~x` on 32-bit unsigned is `x ^^^ 0xFFFFFFFF`. -/
def deparity (w : Nat) : Nat :=
  if w &&& 0x40000000 = 0 then (w >>> 6) &&& 0xFFFFFF
  else ((w >>> 6) ^^^ 0xFFFFFFFF) &&& 0xFFFFFF

/-- `GNSSdataFromOSP::SubframeData` (GNSSdataFromOSP.h): satellite number
and the ten stored words of one subframe slot; `sv = 0` means empty. -/
structure SubframeData where
  sv : Nat
  words : List Nat
  deriving DecidableEq

/-- The five subframe slots `subfrmCh[ch][0..4]` of one receiver channel
(`MAXSUBFR = 5`). -/
structure GPSChannel where
  s0 : SubframeData
  s1 : SubframeData
  s2 : SubframeData
  s3 : SubframeData
  s4 : SubframeData
  deriving DecidableEq

/-- Store into slot `subfrmCh[ch][i]`. -/
def setSlot (c : GPSChannel) (i : Nat) (d : SubframeData) : GPSChannel :=
  match i with
  | 0 => { c with s0 := d }
  | 1 => { c with s1 := d }
  | 2 => { c with s2 := d }
  | 3 => { c with s3 := d }
  | _ => { c with s4 := d }

/-- The clearing loop `for (i<MAXSUBFR) subfrmCh[ch][i].sv = 0`
(GNSSdataFromOSP.cpp:697): only the satellite numbers are reset. -/
def clearChannel (c : GPSChannel) : GPSChannel :=
  ⟨⟨0, c.s0.words⟩, ⟨0, c.s1.words⟩, ⟨0, c.s2.words⟩, ⟨0, c.s3.words⟩, ⟨0, c.s4.words⟩⟩

/-- All slot satellite numbers are zero ("empty" per the data model). -/
def channelCleared (c : GPSChannel) : Prop :=
  c.s0.sv = 0 ∧ c.s1.sv = 0 ∧ c.s2.sv = 0 ∧ c.s3.sv = 0 ∧ c.s4.sv = 0

/-- `allGPSEphemReceived` (GNSSdataFromOSP.cpp:1012-1020): subframes 1, 2
and 3 carry the same satellite and the IODC low byte of subframe 1 (bits
23..16 of stored word 8) equals the IODE of subframe 2 (word 3) and the
IODE of subframe 3 (word 10). -/
def allGPSEphemReceived (c : GPSChannel) : Bool :=
  let iodcLSB := ((c.s0.words.getD 7 0) >>> 16) &&& 0xFF
  (c.s0.sv == c.s1.sv) && (c.s0.sv == c.s2.sv) &&
  (iodcLSB == ((c.s1.words.getD 2 0) >>> 16) &&& 0xFF) &&
  (iodcLSB == ((c.s2.words.getD 9 0) >>> 16) &&& 0xFF)

/-- The repacking of one subframe's ten 24-bit words into fifteen 16-bit
items as per SiRF MID 15 (GNSSdataFromOSP.cpp:680-689), including the
overrides `navW[i*15] = sv` and `navW[i*15+1] &= 0xFF` for the unneeded
TLM bits. -/
def packSubframe (sv : Nat) (w : List Nat) : List Nat :=
  let g := fun i => w.getD i 0
  [ sv,
    ((((g 0) &&& 0xFF) <<< 8) ||| (((g 1) >>> 16) &&& 0xFF)) &&& 0xFF,
    (g 1) &&& 0xFFFF,
    ((g 2) >>> 8) &&& 0xFFFF,
    (((g 2) &&& 0xFF) <<< 8) ||| (((g 3) >>> 16) &&& 0xFF),
    (g 3) &&& 0xFFFF,
    ((g 4) >>> 8) &&& 0xFFFF,
    (((g 4) &&& 0xFF) <<< 8) ||| (((g 5) >>> 16) &&& 0xFF),
    (g 5) &&& 0xFFFF,
    ((g 6) >>> 8) &&& 0xFFFF,
    (((g 6) &&& 0xFF) <<< 8) ||| (((g 7) >>> 16) &&& 0xFF),
    (g 7) &&& 0xFFFF,
    ((g 8) >>> 8) &&& 0xFFFF,
    (((g 8) &&& 0xFF) <<< 8) ||| (((g 9) >>> 16) &&& 0xFF),
    (g 9) &&& 0xFFFF ]

/-- The 45-item `navW` array packed from subframes 1-3
(GNSSdataFromOSP.cpp:679-689). -/
def packNavW (c : GPSChannel) (sv : Nat) : List Nat :=
  packSubframe sv c.s0.words ++ packSubframe sv c.s1.words ++ packSubframe sv c.s2.words

/-- `extractGPSEphemeris` (GNSSdataFromOSP.cpp:1045-1114): checks the SV
consistency and IOD consistency of the packed words, then extracts the
broadcast-orbit mantissa matrix.  Returns `none` on the checks failing. -/
def extractGPSEphemeris (navW : List Nat) : Option (Nat × List (List Int)) :=
  let g := fun i => navW.getD i 0
  let sv := (g 0) &&& 0xFF
  if ¬ ((sv = (g 15) &&& 0xFF) ∧ (sv = (g 30) &&& 0xFF)) then none
  else
    let iodcLSB := (g 10) &&& 0xFF
    let iode1 := ((g (15+3)) >>> 8) &&& 0xFF
    let iode2 := (g (30+13)) &&& 0xFF
    if ¬ (iode1 = iode2 ∧ iode1 = iodcLSB) then none
    else some (sv,
      [ [ ((g 11 : Nat) : Int),
          getTwosComplement ((((g 13) &&& 0xFF) <<< 14) ||| (((g 14) >>> 2) &&& 0x3FFF)) 22,
          getTwosComplement ((((g 12) &&& 0xFF) <<< 8) ||| (((g 13) >>> 8) &&& 0xFF)) 16,
          getTwosComplement (((g 12) >>> 8) &&& 0xFF) 8 ],
        [ ((iode1 : Nat) : Int),
          getTwosComplement ((((g (15+3)) &&& 0xFF) <<< 8) ||| (((g (15+4)) >>> 8) &&& 0xFF)) 16,
          getTwosComplement ((((g (15+4)) &&& 0xFF) <<< 8) ||| (((g (15+5)) >>> 8) &&& 0xFF)) 16,
          getTwosComplement ((((g (15+5)) &&& 0xFF) <<< 24) ||| (((g (15+6)) &&& 0xFFFF) <<< 8) ||| (((g (15+7)) >>> 8) &&& 0xFF)) 32 ],
        [ getTwosComplement ((((g (15+7)) &&& 0xFF) <<< 8) ||| (((g (15+8)) >>> 8) &&& 0xFF)) 16,
          (((((g (15+8)) &&& 0xFF) <<< 24) ||| (((g (15+9)) &&& 0xFFFF) <<< 8) ||| (((g (15+10)) >>> 8) &&& 0xFF) : Nat) : Int),
          getTwosComplement ((((g (15+10)) &&& 0xFF) <<< 8) ||| (((g (15+11)) >>> 8) &&& 0xFF)) 16,
          (((((g (15+11)) &&& 0xFF) <<< 24) ||| (((g (15+12)) &&& 0xFFFF) <<< 8) ||| (((g (15+13)) >>> 8) &&& 0xFF) : Nat) : Int) ],
        [ (((((g (15+13)) &&& 0xFF) <<< 8) ||| (((g (15+14)) >>> 8) &&& 0xFF) : Nat) : Int),
          getTwosComplement (g (30+3)) 16,
          getTwosComplement ((((g (30+4)) &&& 0xFFFF) <<< 16) ||| ((g (30+5)) &&& 0xFFFF)) 32,
          getTwosComplement (g (30+6)) 16 ],
        [ getTwosComplement ((((g (30+7)) &&& 0xFFFF) <<< 16) ||| ((g (30+8)) &&& 0xFFFF)) 32,
          getTwosComplement (g (30+9)) 16,
          getTwosComplement ((((g (30+10)) &&& 0xFFFF) <<< 16) ||| ((g (30+11)) &&& 0xFFFF)) 32,
          getTwosComplement ((((g (30+12)) &&& 0xFFFF) <<< 8) ||| (((g (30+13)) >>> 8) &&& 0xFF)) 24 ],
        [ getTwosComplement (((g (30+14)) >>> 2) &&& 0x3FFF) 14,
          ((((g 3) >>> 4) &&& 0x3 : Nat) : Int),
          (((((g 3) >>> 6) &&& 0x3FF) + 1024 : Nat) : Int),
          ((((g 4) >>> 7) &&& 0x1 : Nat) : Int) ],
        [ (((g 3) &&& 0xF : Nat) : Int),
          ((((g 4) >>> 10) &&& 0x3F : Nat) : Int),
          getTwosComplement (((g 10) >>> 8) &&& 0xFF) 8,
          ((iodcLSB ||| ((g 4) &&& 0x300) : Nat) : Int) ],
        [ ((((((g 1) &&& 0xFF) <<< 9) ||| (((g 2) >>> 7) &&& 0x1FF)) * 600 : Nat) : Int),
          ((((g (15+14)) >>> 7) &&& 0x1 : Nat) : Int),
          0,
          ((iode2 : Nat) : Int) ] ])

/-- One ephemeris emission: the satellite number and the mantissa matrix
handed to `scaleGPSEphemeris` and then `rinex.saveNavData`
(GNSSdataFromOSP.cpp:691-694). -/
abbrev Emission := Nat × List (List Int)

/-- The body of `getMID8GPSNavData` (GNSSdataFromOSP.cpp:649-699) for one
MID 8 message carrying GPS words: check the parity of the ten raw words,
strip parity, read the subframe and page id, retain subframes 1-3 and the
iono page of subframe 4, and on completion extract the ephemeris, emit it,
and clear the channel slots.  Returns the new channel state and the
emissions (`saveNavData` calls) produced. -/
def processGPSSubframe (c : GPSChannel) (sv : Nat) (raw : List Nat) :
    GPSChannel × List Emission :=
  if ¬ (raw.all checkGPSparity) then (c, [])
  else
    let wd := raw.map deparity
    let subfrmID := ((wd.getD 1 0) >>> 2) &&& 0x7
    let pgID := ((wd.getD 2 0) >>> 16) &&& 0x3F
    if (0 < subfrmID ∧ subfrmID < 4) ∨ (subfrmID = 4 ∧ pgID = 56) then
      let c1 := setSlot c (subfrmID - 1) ⟨sv, wd⟩
      if allGPSEphemReceived c1 then
        match extractGPSEphemeris (packNavW c1 sv) with
        | some e => (clearChannel c1, [e])
        | none => (clearChannel c1, [])
      else (c1, [])
    else (c, [])

/-- A sequence of MID 8 GPS messages `(sv, raw words)` fed to one channel;
collects all emissions in order. -/
def runGPSChannel (c : GPSChannel) : List (Nat × List Nat) → GPSChannel × List Emission
  | [] => (c, [])
  | (sv, raw) :: rest =>
    let step := processGPSSubframe c sv raw
    let next := runGPSChannel step.1 rest
    (next.1, step.2 ++ next.2)

/-! ## Theorems -/

/-! ### C4: fit-interval lookup -/

/-- C4 counterexample: the claim says fit-flag 0 with IODC 200 yields 6
hours, but `scaleGPSEphemeris` returns 4.0 whenever the fit flag is 0. -/
theorem c4_fit_interval_counterexample :
    fitInterval 0 200 = 4 ∧ fitInterval 0 200 ≠ 6 := by
  constructor
  · norm_num [fitInterval]
  · norm_num [fitInterval]

/-- C4 amended: the fit-interval computation yields 4 hours for
fit-flag 0 with IODC 200, 8 hours for fit-flag 1 with IODC 240 and
26 hours for fit-flag 1 with IODC 1022. -/
theorem c4_fit_interval_amended :
    fitInterval 0 200 = 4 ∧ fitInterval 1 240 = 8 ∧ fitInterval 1 1022 = 26 := by
  refine ⟨?_, ?_, ?_⟩ <;> norm_num [fitInterval]

/-! ### C6: bit primitives -/

/-- C6 counterexample: `widen(widen(x,n),n) = widen(x,n)` fails on the
code.  `getTwosComplement 3 2 = -1`; passing `-1` back as the C
`unsigned int` argument yields the pattern `2^32 - 1`, which the function
widens to `-5`, not `-1`. -/
theorem c6_bits_widen_counterexample :
    getTwosComplement 3 2 = -1 ∧
    getTwosComplement (intToUint (getTwosComplement 3 2)) 2 = -5 ∧
    getTwosComplement (intToUint (getTwosComplement 3 2)) 2 ≠ getTwosComplement 3 2 := by
  refine ⟨by decide, by decide, by decide⟩

/-- C6 amended: `getBits` returns a value in `[0, 2^len)` for
`len ≤ 32`, and `getTwosComplement` maps every `x < 2^(nbits-1)` to
itself — hence re-widening is the identity on those inputs; idempotence
fails in general (see the counterexample). -/
theorem c6_bits_widen_amended :
    (∀ (stream : Nat → Nat) (bitpos len : Nat), len ≤ 32 →
      getBits stream bitpos len < 2 ^ len) ∧
    (∀ (x n : Nat), 1 ≤ n → n ≤ 32 → x < 2 ^ (n - 1) →
      getTwosComplement x n = x ∧
      getTwosComplement (intToUint (getTwosComplement x n)) n = getTwosComplement x n) := by
  constructor
  · intro stream bitpos len _
    clear * -
    induction len generalizing bitpos with
    | zero => simp [getBits]
    | succ n ih =>
      have hbit : streamBit stream bitpos ≤ 1 := Nat.and_le_right
      have h := ih (bitpos + 1)
      simp only [getBits, pow_succ]
      omega
  · intro x n h1 h32 hx
    have hx31 : x < 2 ^ 31 := by
      have : (2 : Nat) ^ (n - 1) ≤ 2 ^ 31 := Nat.pow_le_pow_right (by norm_num) (by omega)
      omega
    have hx32 : x < 2 ^ 32 := by
      have : (2 : Nat) ^ 31 ≤ 2 ^ 32 := Nat.pow_le_pow_right (by norm_num) (by omega)
      omega
    have hval : uintToInt32 x = (x : Int) := by
      unfold uintToInt32
      rw [Nat.mod_eq_of_lt hx32, if_pos hx31]
    have hid : getTwosComplement x n = (x : Int) := by
      unfold getTwosComplement
      by_cases h32' : 32 ≤ n
      · simp [h32', hval]
      · simp [h32', hx, hval]
    refine ⟨hid, ?_⟩
    have hback : intToUint ((x : Int)) = x := by
      unfold intToUint
      rw [Int.emod_eq_of_lt (by positivity) (by exact_mod_cast hx32)]
      simp
    rw [hid, hback, hid]

/-! ### C7: stripped-mode message read -/

/-- C7 counterexample: the claim says a decoded length of 0 makes the
read fail, but `OSPMessage::fill` only rejects lengths above
`MAXPAYLOADSIZE`; on input bytes `00 00` it succeeds with an empty
payload. -/
theorem c7_fill_counterexample :
    (0 <<< 8) ||| 0 = 0 ∧ fill [0, 0] = (true, 0, []) := by
  refine ⟨by decide, by decide⟩

/-- C7 amended: the read fails whenever the decoded big-endian length
exceeds 2048 and whenever fewer payload bytes than the declared length
remain; for every length in 0..2048 with a full payload available
(including length 0) the read succeeds. -/
theorem c7_fill_amended :
    ∀ (b0 b1 : Nat) (rest : List Nat),
      (MAXPAYLOADSIZE < (b0 <<< 8) ||| b1 → (fill (b0 :: b1 :: rest)).1 = false) ∧
      (rest.length < (b0 <<< 8) ||| b1 → (fill (b0 :: b1 :: rest)).1 = false) ∧
      ((b0 <<< 8) ||| b1 ≤ MAXPAYLOADSIZE → (b0 <<< 8) ||| b1 ≤ rest.length →
        fill (b0 :: b1 :: rest) =
          (true, (b0 <<< 8) ||| b1, rest.take ((b0 <<< 8) ||| b1))) := by
  intro b0 b1 rest
  refine ⟨?_, ?_, ?_⟩
  · intro h
    simp only [fill]
    rw [if_pos h]
  · intro h
    simp only [fill]
    by_cases hmax : (b0 <<< 8) ||| b1 > MAXPAYLOADSIZE
    · rw [if_pos hmax]
    · rw [if_neg hmax, if_pos h]
  · intro h1 h2
    simp only [fill]
    rw [if_neg (Nat.not_lt.mpr h1), if_neg (Nat.not_lt.mpr h2)]

/-- C7 amended, witness: length 3 with payload `[1,2,3]` succeeds, and a
short read fails. -/
theorem c7_fill_amended_witness :
    fill [0, 3, 1, 2, 3] = (true, 3, [1, 2, 3]) ∧ (fill [0, 3, 1, 2]).1 = false := by
  constructor
  · exact (c7_fill_amended 0 3 [1, 2, 3]).2.2 (by decide) (by decide)
  · exact (c7_fill_amended 0 3 [1, 2]).2.1 (by decide)

/-! ### C10: clock-bias application skips zero observables -/

/-- C10: with bias application enabled, a pseudorange, carrier phase or
Doppler equal to exactly 0 is saved unchanged as 0, never as minus the
correction term (`acqEpochData` corrects only non-zero values). -/
theorem c10_zero_not_corrected :
    ∀ (epochClkBias epochClkDrift : Rat) (c : ChannelObs),
      (c.psedrng = 0 → (epochObservables true epochClkBias epochClkDrift c).c1c = 0) ∧
      (c.carrPh = 0 → (epochObservables true epochClkBias epochClkDrift c).l1c = 0) ∧
      (c.carrFq = 0 → (epochObservables true epochClkBias epochClkDrift c).d1c = 0) := by
  intro b d c
  refine ⟨?_, ?_, ?_⟩ <;> intro h <;> simp [epochObservables, h]

/-- C10 witness: the all-zero channel observation is saved as zeros even
with a non-zero clock bias and drift. -/
theorem c10_zero_not_corrected_witness :
    (epochObservables true 1 1 ⟨0, 0, 0, 7⟩).c1c = 0 ∧
    (epochObservables true 1 1 ⟨0, 0, 0, 7⟩).l1c = 0 ∧
    (epochObservables true 1 1 ⟨0, 0, 0, 7⟩).d1c = 0 :=
  ⟨(c10_zero_not_corrected 1 1 ⟨0, 0, 0, 7⟩).1 rfl,
   (c10_zero_not_corrected 1 1 ⟨0, 0, 0, 7⟩).2.1 rfl,
   (c10_zero_not_corrected 1 1 ⟨0, 0, 0, 7⟩).2.2 rfl⟩

/-! ### C3: navigation store uniqueness -/

/-- C3: `saveNavData` inserts a record only when no record with the same
`(time-tag, system, satellite)` key is present; otherwise it returns
false and leaves the store unchanged. -/
theorem c3_nav_unique_key :
    ∀ (nav : List SatNavData) (sys : Char) (sat : Int) (bo : List (List Rat)) (tTag : Rat),
      ((∃ r ∈ nav, r.systemId = sys ∧ r.satellite = sat ∧ r.navTimeTag = tTag) →
        saveNavData nav sys sat bo tTag = (nav, false)) ∧
      ((¬ ∃ r ∈ nav, r.systemId = sys ∧ r.satellite = sat ∧ r.navTimeTag = tTag) →
        saveNavData nav sys sat bo tTag = (nav ++ [⟨tTag, sys, sat, bo⟩], true)) := by
  intro nav sys sat bo tTag
  have hiff : (nav.any fun r => sys == r.systemId && sat == r.satellite && tTag == r.navTimeTag) = true ↔
      ∃ r ∈ nav, r.systemId = sys ∧ r.satellite = sat ∧ r.navTimeTag = tTag := by
    simp only [List.any_eq_true, Bool.and_eq_true, beq_iff_eq]
    constructor
    · rintro ⟨r, hr, ⟨h1, h2⟩, h3⟩
      exact ⟨r, hr, h1.symm, h2.symm, h3.symm⟩
    · rintro ⟨r, hr, h1, h2, h3⟩
      exact ⟨r, hr, ⟨h1.symm, h2.symm⟩, h3.symm⟩
  constructor
  · intro hex
    unfold saveNavData
    rw [if_pos (hiff.mpr hex)]
  · intro hnex
    unfold saveNavData
    rw [if_neg (fun h => hnex (hiff.mp h))]

/-- C3 witness: inserting a fresh key appends it; re-inserting the same
key is refused and keeps the store unchanged. -/
theorem c3_nav_unique_key_witness :
    saveNavData [] 'G' 1 [] 5 = ([⟨5, 'G', 1, []⟩], true) ∧
    saveNavData [⟨5, 'G', 1, []⟩] 'G' 1 [[2]] 5 = ([⟨5, 'G', 1, []⟩], false) := by
  constructor
  · exact (c3_nav_unique_key [] 'G' 1 [] 5).2 (by simp)
  · exact (c3_nav_unique_key [⟨5, 'G', 1, []⟩] 'G' 1 [[2]] 5).1
      ⟨⟨5, 'G', 1, []⟩, by simp, rfl, rfl, rfl⟩

/-- C6 amended, witness at concrete inputs. -/
theorem c6_bits_widen_amended_witness :
    ((3 : Nat) ≤ 32 ∧ getBits (fun _ => 5) 1 3 < 2 ^ 3) ∧
    ((1 : Nat) ≤ 8 ∧ (8 : Nat) ≤ 32 ∧ (100 : Nat) < 2 ^ (8 - 1) ∧
      getTwosComplement 100 8 = 100) :=
  ⟨⟨by decide, c6_bits_widen_amended.1 (fun _ => 5) 1 3 (by decide)⟩,
   ⟨by decide, by decide, by decide,
    (c6_bits_widen_amended.2 100 8 (by decide) (by decide) (by decide)).1⟩⟩

/-! ### C2: epoch store time-tag invariant -/

/-- One `saveObsData` call preserves the invariant that every stored
record carries the epoch time tag. -/
theorem saveObsData_preserves_sameTag (st : RinexState) (sys : Char) (sat : Int)
    (obsType : String) (value : Rat) (lol strg : Int) (tTag : Rat)
    (h : sameTagInv st) :
    sameTagInv (saveObsData st sys sat obsType value lol strg tTag).1 := by
  by_cases hemp : st.epochObs.isEmpty
  · have hobs : st.epochObs = [] := by simpa [List.isEmpty_iff] using hemp
    by_cases hsx : 0 ≤ sysInx st.systems sys
    · rcases hfind : findObsTypeIdx (sysAt st.systems (sysInx st.systems sys).toNat).obsType obsType with _ | ox
      · simp [saveObsData, hemp, hsx, hfind, sameTagInv, hobs]
      · simp [saveObsData, hemp, hsx, hfind, sameTagInv, hobs]
    · simp [saveObsData, hemp, hsx, sameTagInv, hobs]
  · by_cases heq : st.epochTimeTag = tTag
    · by_cases hsx : 0 ≤ sysInx st.systems sys
      · rcases hfind : findObsTypeIdx (sysAt st.systems (sysInx st.systems sys).toNat).obsType obsType with _ | ox
        · simpa [saveObsData, hemp, heq, hsx, hfind, sameTagInv] using h
        · simp [saveObsData, hemp, heq, hsx, hfind, sameTagInv]
          rintro r (hr | rfl)
          · exact (h r hr).trans heq
          · rfl
      · simpa [saveObsData, hemp, heq, hsx, sameTagInv] using h
    · simpa [saveObsData, hemp, heq, sameTagInv] using h

/-- C2: all records held in the epoch store share the epoch's time tag,
over any sequence of `saveObsData` calls; the first call into an empty
store defines the epoch tag; a call whose tag differs from that of a
stored record stores nothing and returns false. -/
theorem c2_epoch_time_tag_invariant :
    (∀ (st : RinexState) (calls : List ObsCall), sameTagInv st →
      sameTagInv (runSaveObs st calls)) ∧
    (∀ (st : RinexState) (c : ObsCall), st.epochObs = [] →
      (saveObsData st c.sys c.sat c.obsType c.value c.lol c.strg c.tTag).1.epochTimeTag
        = c.tTag) ∧
    (∀ (st : RinexState) (c : ObsCall) (r : SatObsData), sameTagInv st →
      r ∈ st.epochObs → c.tTag ≠ r.obsTimeTag →
      saveObsData st c.sys c.sat c.obsType c.value c.lol c.strg c.tTag = (st, false)) := by
  refine ⟨?_, ?_, ?_⟩
  · intro st calls
    induction calls generalizing st with
    | nil => exact fun h => h
    | cons c cs ih =>
      intro h
      exact ih _ (saveObsData_preserves_sameTag st c.sys c.sat c.obsType c.value
        c.lol c.strg c.tTag h)
  · intro st c hobs
    have hemp : st.epochObs.isEmpty := by simp [hobs]
    by_cases hsx : 0 ≤ sysInx st.systems c.sys
    · rcases hfind : findObsTypeIdx (sysAt st.systems (sysInx st.systems c.sys).toNat).obsType c.obsType with _ | ox
      · simp [saveObsData, hemp, hsx, hfind]
      · simp [saveObsData, hemp, hsx, hfind]
    · simp [saveObsData, hemp, hsx]
  · intro st c r h hr hne
    have hemp : ¬ st.epochObs.isEmpty := by
      rcases hobs : st.epochObs with _ | _
      · rw [hobs] at hr; exact absurd hr (List.not_mem_nil r)
      · simp [hobs]
    have heq : ¬ (st.epochTimeTag = c.tTag) := fun he => hne (((h r hr).trans he).symm)
    simp [saveObsData, hemp, heq]

/-- C2 witness: saving at tag 5 into an empty store sets the epoch tag;
a second call at tag 7 stores nothing and returns false. -/
theorem c2_epoch_time_tag_invariant_witness :
    (saveObsData ⟨[⟨'G', true, ["C1C"], [true], []⟩], 0, [], [], [], false, false⟩
        'G' 1 "C1C" 2 0 9 5).1.epochTimeTag = 5 ∧
    saveObsData ⟨[⟨'G', true, ["C1C"], [true], []⟩], 5, [⟨5, 0, 1, 0, 2, 0, 9⟩], [], [], false, false⟩
        'G' 1 "C1C" 3 0 9 7 =
      (⟨[⟨'G', true, ["C1C"], [true], []⟩], 5, [⟨5, 0, 1, 0, 2, 0, 9⟩], [], [], false, false⟩, false) := by
  constructor
  · exact c2_epoch_time_tag_invariant.2.1
      ⟨[⟨'G', true, ["C1C"], [true], []⟩], 0, [], [], [], false, false⟩
      ⟨'G', 1, "C1C", 2, 0, 9, 5⟩ rfl
  · exact c2_epoch_time_tag_invariant.2.2
      ⟨[⟨'G', true, ["C1C"], [true], []⟩], 5, [⟨5, 0, 1, 0, 2, 0, 9⟩], [], [], false, false⟩
      ⟨'G', 1, "C1C", 3, 0, 9, 7⟩ ⟨5, 0, 1, 0, 2, 0, 9⟩
      (by intro s hs; simp at hs; simp [hs]) (by simp) (by norm_num)

/-! ### C9: saveObsData reports epoch membership, not storage -/

/-- C9: a measurement whose tag matches the current epoch (or arrives at
an empty store) but whose system or observable type is not declared in
the header systems is dropped — the observation store is unchanged — yet
`saveObsData` still returns true. -/
theorem c9_save_returns_membership :
    ∀ (st : RinexState) (sys : Char) (sat : Int) (obsType : String)
      (value : Rat) (lol strg : Int) (tTag : Rat),
      (st.epochObs = [] ∨ st.epochTimeTag = tTag) →
      (sysInx st.systems sys < 0 ∨
        findObsTypeIdx (sysAt st.systems (sysInx st.systems sys).toNat).obsType
          obsType = none) →
      (saveObsData st sys sat obsType value lol strg tTag).2 = true ∧
      (saveObsData st sys sat obsType value lol strg tTag).1.epochObs = st.epochObs := by
  intro st sys sat obsType value lol strg tTag htag hmiss
  by_cases hemp : st.epochObs.isEmpty
  · rcases hmiss with hmiss | hmiss
    · have hsx : ¬ 0 ≤ sysInx st.systems sys := by omega
      constructor <;> simp [saveObsData, hemp, hsx]
    · by_cases hsx : 0 ≤ sysInx st.systems sys
      · constructor <;> simp [saveObsData, hemp, hsx, hmiss]
      · constructor <;> simp [saveObsData, hemp, hsx]
  · have heq : st.epochTimeTag = tTag := by
      rcases htag with h | h
      · exact absurd (by simp [h] : st.epochObs.isEmpty = true) hemp
      · exact h
    rcases hmiss with hmiss | hmiss
    · have hsx : ¬ 0 ≤ sysInx st.systems sys := by omega
      constructor <;> simp [saveObsData, hemp, heq, hsx]
    · by_cases hsx : 0 ≤ sysInx st.systems sys
      · constructor <;> simp [saveObsData, hemp, heq, hsx, hmiss]
      · constructor <;> simp [saveObsData, hemp, heq, hsx]

/-- C9 witness: an undeclared observable type ("L1C") at the epoch's tag
is dropped but reported true. -/
theorem c9_save_returns_membership_witness :
    (saveObsData ⟨[⟨'G', true, ["C1C"], [true], []⟩], 5, [⟨5, 0, 1, 0, 2, 0, 9⟩], [], [], false, false⟩
        'G' 1 "L1C" 3 0 9 5).2 = true ∧
    (saveObsData ⟨[⟨'G', true, ["C1C"], [true], []⟩], 5, [⟨5, 0, 1, 0, 2, 0, 9⟩], [], [], false, false⟩
        'G' 1 "L1C" 3 0 9 5).1.epochObs = [⟨5, 0, 1, 0, 2, 0, 9⟩] :=
  c9_save_returns_membership
    ⟨[⟨'G', true, ["C1C"], [true], []⟩], 5, [⟨5, 0, 1, 0, 2, 0, 9⟩], [], [], false, false⟩
    'G' 1 "L1C" 3 0 9 5 (Or.inr rfl) (Or.inr (by decide))

/-! ### C5: the observation filter after setFilter([], ["GC1C"]) -/

/-- The S6 scenario header systems: G and R, each with observables
C1C and L1C, everything selected, no satellite restriction. -/
def sysGR : List GNSSsystem :=
  [⟨'G', true, ["C1C", "L1C"], [true, true], []⟩,
   ⟨'R', true, ["C1C", "L1C"], [true, true], []⟩]

/-- A RinexData state holding the S6 systems and a given epoch store. -/
def mkGRState (obs : List SatObsData) : RinexState :=
  ⟨sysGR, 0, obs, [], [], false, false⟩

/-- The systems state left by `setFilter (mkGRState obs) [] ["GC1C"]`:
selecting the observable `GC1C` marks system G selected with only C1C,
and resets `selSystem` of every other system — including R — to false. -/
theorem setFilter_GC1C_eq (obs : List SatObsData) :
    setFilter (mkGRState obs) [] ["GC1C"] =
      ({ systems := [⟨'G', true, ["C1C", "L1C"], [true, false], []⟩,
                     ⟨'R', false, ["C1C", "L1C"], [true, true], []⟩],
         epochTimeTag := 0, epochObs := obs, epochNav := [], selectedSats := [],
         applyObsFilter := true, applyNavFilter := false }, true) := rfl

/-- C5 counterexample: with systems {G,R} and observables {C1C,L1C},
after `setFilter([], ["GC1C"])` the filter pass drops the system-R
record — the claim says every system-R record is kept — while keeping
the G/C1C record and dropping the G/L1C record. -/
theorem c5_filter_counterexample :
    (⟨5, 1, 1, 0, 12, 0, 9⟩ : SatObsData) ∉
      (filterObsData (setFilter (mkGRState
        [⟨5, 0, 1, 0, 10, 0, 9⟩, ⟨5, 0, 1, 1, 11, 0, 9⟩, ⟨5, 1, 1, 0, 12, 0, 9⟩])
        [] ["GC1C"]).1).1.epochObs ∧
    (⟨5, 0, 1, 0, 10, 0, 9⟩ : SatObsData) ∈
      (filterObsData (setFilter (mkGRState
        [⟨5, 0, 1, 0, 10, 0, 9⟩, ⟨5, 0, 1, 1, 11, 0, 9⟩, ⟨5, 1, 1, 0, 12, 0, 9⟩])
        [] ["GC1C"]).1).1.epochObs ∧
    (⟨5, 0, 1, 1, 11, 0, 9⟩ : SatObsData) ∉
      (filterObsData (setFilter (mkGRState
        [⟨5, 0, 1, 0, 10, 0, 9⟩, ⟨5, 0, 1, 1, 11, 0, 9⟩, ⟨5, 1, 1, 0, 12, 0, 9⟩])
        [] ["GC1C"]).1).1.epochObs := by
  rw [setFilter_GC1C_eq]
  simp only [filterObsData, eq_self_iff_true, if_true]
  refine ⟨?_, ?_, ?_⟩
  · rw [(List.mergeSort_perm _ _).mem_iff]
    decide
  · rw [(List.mergeSort_perm _ _).mem_iff]
    decide
  · rw [(List.mergeSort_perm _ _).mem_iff]
    decide

/-- C5 amended: for any epoch store over the S6 model (record indexes in
range), after `setFilter([], ["GC1C"])` the filter keeps exactly the
records with system G and observable C1C: records with system G and
observable L1C are removed, and — contrary to the original claim — every
record with system R is removed as well, because selecting an observable
of G deselects all other systems. -/
theorem c5_filter_amended :
    ∀ (obs : List SatObsData), (∀ r ∈ obs, r.sysIndex < 2 ∧ r.obsTypeIndex < 2) →
      ∀ r : SatObsData,
        r ∈ (filterObsData (setFilter (mkGRState obs) [] ["GC1C"]).1).1.epochObs ↔
          (r ∈ obs ∧ r.sysIndex = 0 ∧ r.obsTypeIndex = 0) := by
  intro obs hwf r
  rw [setFilter_GC1C_eq]
  simp only [filterObsData, eq_self_iff_true, if_true]
  rw [(List.mergeSort_perm _ _).mem_iff]
  have hkeep : ∀ s ∈ obs,
      (keepObs [⟨'G', true, ["C1C", "L1C"], [true, false], []⟩,
                ⟨'R', false, ["C1C", "L1C"], [true, true], []⟩] s = true ↔
        (s.sysIndex = 0 ∧ s.obsTypeIndex = 0)) := by
    intro s hs
    obtain ⟨h1, h2⟩ := hwf s hs
    have h1' : s.sysIndex = 0 ∨ s.sysIndex = 1 := by omega
    have h2' : s.obsTypeIndex = 0 ∨ s.obsTypeIndex = 1 := by omega
    rcases h1' with h1' | h1' <;> rcases h2' with h2' | h2' <;>
      simp [keepObs, sysAt, isSatSelected, h1', h2']
  simp only [List.mem_filter]
  constructor
  · rintro ⟨hmem, hk⟩
    exact ⟨hmem, (hkeep r hmem).mp hk⟩
  · rintro ⟨hmem, hix⟩
    exact ⟨hmem, (hkeep r hmem).mpr hix⟩

/-- C5 amended, witness: on a two-record store the G/C1C record is kept
and the R/C1C record is removed. -/
theorem c5_filter_amended_witness :
    (∀ r ∈ [(⟨5, 0, 1, 0, 10, 0, 9⟩ : SatObsData), ⟨5, 1, 1, 0, 12, 0, 9⟩],
      r.sysIndex < 2 ∧ r.obsTypeIndex < 2) ∧
    ((⟨5, 0, 1, 0, 10, 0, 9⟩ : SatObsData) ∈
      (filterObsData (setFilter (mkGRState
        [⟨5, 0, 1, 0, 10, 0, 9⟩, ⟨5, 1, 1, 0, 12, 0, 9⟩]) [] ["GC1C"]).1).1.epochObs ↔
      ((⟨5, 0, 1, 0, 10, 0, 9⟩ : SatObsData) ∈
        [(⟨5, 0, 1, 0, 10, 0, 9⟩ : SatObsData), ⟨5, 1, 1, 0, 12, 0, 9⟩] ∧
        (0 : Nat) = 0 ∧ (0 : Nat) = 0)) :=
  ⟨by decide,
   c5_filter_amended [⟨5, 0, 1, 0, 10, 0, 9⟩, ⟨5, 1, 1, 0, 12, 0, 9⟩]
     (by decide) ⟨5, 0, 1, 0, 10, 0, 9⟩⟩

/-! ### C8: V2.10 epoch-header continuation lines -/

/-- Adjacent-token wellformedness: a newline is immediately followed by
the 32 blank columns of a continuation line. -/
def nlOk : Token → Token → Prop := fun a b => a = Token.newline → b = Token.blanks 32

/-- The tokens of the first printed line: everything before the first
newline. -/
def firstLine (ts : List Token) : List Token := ts.takeWhile (fun t => t != Token.newline)

/-- Prepending a non-newline token preserves the `nlOk` chain. -/
theorem chain'_nlOk_cons (t : Token) (ht : t ≠ Token.newline) {l : List Token}
    (h : List.Chain' nlOk l) : List.Chain' nlOk (t :: l) := by
  rw [List.chain'_cons']
  exact ⟨fun y _ hy => absurd hy ht, h⟩

/-- One loop step preserves the `nlOk` chain: the newline it may emit is
immediately followed by the 32 blank columns. -/
theorem emitStep_chain' (systems : List GNSSsystem) (o : SatObsData) (a : Nat)
    {rec : List Token} (h : List.Chain' nlOk rec) :
    List.Chain' nlOk (emitStep systems o a rec) := by
  have hc : ∀ l : List Token, List.Chain' nlOk l → List.Chain' nlOk
      (Token.sat (sysAt systems o.sysIndex).system o.satellite :: l) :=
    fun l hl => chain'_nlOk_cons _ (by simp) hl
  have hclk : List.Chain' nlOk (Token.clk :: rec) := chain'_nlOk_cons _ (by simp) h
  simp only [emitStep]
  by_cases hmod : a % 12 = 0 <;> by_cases h12 : a + 1 = 12
  · rw [if_pos h12, if_pos hmod]
    exact List.chain'_cons.mpr ⟨fun _ => rfl, chain'_nlOk_cons _ (by simp) (hc _ hclk)⟩
  · rw [if_neg h12, if_pos hmod]
    exact List.chain'_cons.mpr ⟨fun _ => rfl, chain'_nlOk_cons _ (by simp) (hc _ h)⟩
  · rw [if_pos h12, if_neg hmod]
    exact hc _ hclk
  · rw [if_neg h12, if_neg hmod]
    exact hc _ h

/-- The satellite loop preserves the `nlOk` chain of any suffix it is
prepended to. -/
theorem emitSats_chain'_append (systems : List GNSSsystem) :
    ∀ (rest : List SatObsData) (prev : SatObsData) (a : Nat) (ck : Bool)
      (suf : List Token), List.Chain' nlOk suf →
      List.Chain' nlOk ((emitSats systems rest prev a ck).1 ++ suf) := by
  intro rest
  induction rest with
  | nil =>
    intro prev a ck suf h
    simpa [emitSats] using h
  | cons o rest ih =>
    intro prev a ck suf h
    by_cases hdiff : differentSat prev o
    · have hstep : (emitSats systems (o :: rest) prev a ck).1 =
          emitStep systems o a
            (emitSats systems rest o (a + 1) (ck || (a + 1 = 12))).1 := by
        simp [emitSats, hdiff]
      rw [hstep]
      have happ : emitStep systems o a
            (emitSats systems rest o (a + 1) (ck || (a + 1 = 12))).1 ++ suf =
          emitStep systems o a
            ((emitSats systems rest o (a + 1) (ck || (a + 1 = 12))).1 ++ suf) := by
        unfold emitStep
        by_cases hmod : a % 12 = 0 <;> by_cases h12 : a + 1 = 12 <;>
          simp [hmod, h12]
      rw [happ]
      exact emitStep_chain' systems o a (ih o (a + 1) (ck || (a + 1 = 12)) suf h)
    · have hstep : emitSats systems (o :: rest) prev a ck =
          emitSats systems rest o a ck := by
        simp [emitSats, hdiff]
      rw [hstep]
      exact ih o a ck suf h

/-- Blank fill tokens preserve the `nlOk` chain. -/
theorem chain'_nlOk_pad (final : List Token) (h : List.Chain' nlOk final) :
    ∀ n : Nat, List.Chain' nlOk (List.replicate n (Token.blanks 3) ++ final) := by
  intro n
  induction n with
  | zero => simpa using h
  | succ n ih => simpa [List.replicate_succ] using chain'_nlOk_cons _ (by simp) ih

/-- When the loop starts below twelve printed satellites and at least
twelve will be printed, the clock-offset token is emitted before any
newline. -/
theorem emitSats_clk_decomp (systems : List GNSSsystem) :
    ∀ (rest : List SatObsData) (prev : SatObsData) (a : Nat), 1 ≤ a → a ≤ 11 →
      12 ≤ a + countDiff rest prev →
      ∃ u v, (emitSats systems rest prev a false).1 = u ++ Token.clk :: v ∧
        Token.newline ∉ u := by
  intro rest
  induction rest with
  | nil =>
    intro prev a h1 h11 h12
    simp [countDiff] at h12
    omega
  | cons o rest ih =>
    intro prev a h1 h11 h12
    by_cases hdiff : differentSat prev o
    · have hck : (false || (a + 1 = 12)) = decide (a + 1 = 12) := by simp
      have hstep : (emitSats systems (o :: rest) prev a false).1 =
          emitStep systems o a
            (emitSats systems rest o (a + 1) (false || (a + 1 = 12))).1 := by
        simp [emitSats, hdiff]
      by_cases h12' : a + 1 = 12
      · refine ⟨[Token.sat (sysAt systems o.sysIndex).system o.satellite],
          (emitSats systems rest o (a + 1) (false || (a + 1 = 12))).1, ?_, by simp⟩
        rw [hstep]
        simp only [emitStep]
        have hmod : ¬ a % 12 = 0 := by omega
        rw [if_pos h12', if_neg hmod]
        rfl
      · have hcount : countDiff (o :: rest) prev = 1 + countDiff rest o := by
          simp [countDiff, hdiff]
        have hck0 : (false || (a + 1 = 12)) = false := by simp [h12']
        obtain ⟨u, v, hu, hnu⟩ := ih o (a + 1) (by omega) (by omega) (by omega)
        refine ⟨Token.sat (sysAt systems o.sysIndex).system o.satellite :: u, v, ?_, ?_⟩
        · rw [hstep, hck0]
          simp only [emitStep]
          have hmod : ¬ a % 12 = 0 := by omega
          rw [if_neg h12', if_neg hmod, hu]
          rfl
        · simp [hnu]
    · have hstep : emitSats systems (o :: rest) prev a false =
          emitSats systems rest o a false := by
        simp [emitSats, hdiff]
      have hcount : countDiff (o :: rest) prev = countDiff rest o := by
        simp [countDiff, hdiff]
      rw [hstep]
      exact ih o a h1 h11 (by omega)

/-- The clock token lies on the first line of a stream that starts with
newline-free tokens followed by the clock token. -/
theorem clk_mem_firstLine (w : List Token) :
    ∀ (z : List Token), Token.newline ∉ w →
      Token.clk ∈ firstLine (w ++ Token.clk :: z) := by
  induction w with
  | nil =>
    intro z _
    have hne : (Token.clk != Token.newline) = true := by decide
    simp [firstLine, List.takeWhile, hne]
  | cons t w ih =>
    intro z hw
    have ht : t ≠ Token.newline := fun h => hw (h ▸ List.mem_cons_self t w)
    have ht' : (t != Token.newline) = true := by simpa using ht
    simp only [List.cons_append, firstLine, List.takeWhile, ht']
    exact List.mem_cons_of_mem t (ih z (fun h => hw (List.mem_cons_of_mem t h)))

/-- A 13-satellite epoch: 13 sorted records, system index 0,
satellites 1..13, observable index 0, at time tag 5. -/
def c8rest : List SatObsData :=
  [⟨5, 0, 2, 0, 10, 0, 9⟩, ⟨5, 0, 3, 0, 10, 0, 9⟩, ⟨5, 0, 4, 0, 10, 0, 9⟩,
   ⟨5, 0, 5, 0, 10, 0, 9⟩, ⟨5, 0, 6, 0, 10, 0, 9⟩, ⟨5, 0, 7, 0, 10, 0, 9⟩,
   ⟨5, 0, 8, 0, 10, 0, 9⟩, ⟨5, 0, 9, 0, 10, 0, 9⟩, ⟨5, 0, 10, 0, 10, 0, 9⟩,
   ⟨5, 0, 11, 0, 10, 0, 9⟩, ⟨5, 0, 12, 0, 10, 0, 9⟩, ⟨5, 0, 13, 0, 10, 0, 9⟩]

def c8obs : List SatObsData := ⟨5, 0, 1, 0, 10, 0, 9⟩ :: c8rest

/-- C8 counterexample: printing a V2.10 epoch with 13 satellites yields
two header-block lines; the receiver clock offset is printed on the
first line (right after the twelfth satellite triple), not on the last
line as the claim states. -/
theorem c8_v210_header_counterexample :
    (headerLines (printObsEpochHdV210 sysGR 0 c8obs)).length = 2 ∧
    Token.clk ∈ (headerLines (printObsEpochHdV210 sysGR 0 c8obs)).headD [] ∧
    Token.clk ∉ (headerLines (printObsEpochHdV210 sysGR 0 c8obs)).getLastD [] := by
  have hsort : c8obs.mergeSort satObsLtB = c8obs := List.mergeSort_of_sorted (by decide)
  simp only [printObsEpochHdV210]
  rw [hsort]
  decide

/-- C8 amended: when the V2.10 epoch-header block holds more than twelve
satellites, every newline inside the emitted block is immediately
followed by 32 blank columns (continuation lines), and the receiver
clock offset is printed on the first line of the block — after the
twelfth satellite triple — not on the last line. -/
theorem c8_v210_header_amended :
    ∀ (systems : List GNSSsystem) (epochFlag : Int) (obs : List SatObsData)
      (o : SatObsData) (rest : List SatObsData),
      obs.mergeSort satObsLtB = o :: rest →
      12 < 1 + countDiff rest o →
      List.Chain' nlOk (printObsEpochHdV210 systems epochFlag obs) ∧
      Token.clk ∈ firstLine (printObsEpochHdV210 systems epochFlag obs) := by
  intro systems flag obs o rest hsort hcount
  have hred : printObsEpochHdV210 systems flag obs =
      Token.time :: Token.flagSats flag (1 + countDiff rest o) ::
        Token.sat (sysAt systems o.sysIndex).system o.satellite ::
        ((emitSats systems rest o 1 false).1 ++
          padTokens (emitSats systems rest o 1 false).2.1 ++
          (if (emitSats systems rest o 1 false).2.2 then [Token.newline]
           else [Token.clk, Token.newline])) := by
    simp only [printObsEpochHdV210, hsort]
  rw [hred]
  constructor
  · refine chain'_nlOk_cons _ (by simp) (chain'_nlOk_cons _ (by simp)
      (chain'_nlOk_cons _ (by simp) ?_))
    rw [List.append_assoc]
    apply emitSats_chain'_append
    apply chain'_nlOk_pad
    cases hck : (emitSats systems rest o 1 false).2.2
    · rw [if_neg (by simp)]
      exact List.chain'_cons.mpr ⟨by simp [nlOk], List.chain'_singleton _⟩
    · rw [if_pos (by simp)]
      exact List.chain'_singleton _
  · obtain ⟨u, v, hu, hnu⟩ :=
      emitSats_clk_decomp systems rest o 1 (by omega) (by omega) (by omega)
    rw [hu]
    simp only [List.append_assoc, List.cons_append]
    exact clk_mem_firstLine
      (Token.time :: Token.flagSats flag (1 + countDiff rest o) ::
        Token.sat (sysAt systems o.sysIndex).system o.satellite :: u) _
      (by simpa using hnu)

/-- C8 amended, witness: the 13-satellite epoch satisfies the premises,
its header block is continuation-line wellformed and carries the clock
offset on its first line. -/
theorem c8_v210_header_amended_witness :
    (c8obs.mergeSort satObsLtB = ⟨5, 0, 1, 0, 10, 0, 9⟩ :: c8rest ∧
      12 < 1 + countDiff c8rest ⟨5, 0, 1, 0, 10, 0, 9⟩) ∧
    (List.Chain' nlOk (printObsEpochHdV210 sysGR 0 c8obs) ∧
      Token.clk ∈ firstLine (printObsEpochHdV210 sysGR 0 c8obs)) :=
  ⟨⟨List.mergeSort_of_sorted (by decide), by decide⟩,
    c8_v210_header_amended sysGR 0 c8obs ⟨5, 0, 1, 0, 10, 0, 9⟩ c8rest
      (List.mergeSort_of_sorted (by decide)) (by decide)⟩

/-! ### C1: GPS ephemeris completion -/

/-- Masking with `0xFF` after a left-shift-by-8 `or` recovers the low
byte. -/
theorem and255_or_shl8 (x b : Nat) (hb : b < 256) :
    ((x <<< 8) ||| b) &&& 255 = b := by
  have h255 : (255 : Nat) = 2 ^ 8 - 1 := by norm_num
  apply Nat.eq_of_testBit_eq
  intro i
  rw [h255]
  simp only [Nat.testBit_and, Nat.testBit_or, Nat.testBit_shiftLeft,
    Nat.testBit_two_pow_sub_one]
  by_cases hi : i < 8
  · simp [hi, (by omega : ¬ 8 ≤ i)]
  · have h2 : (2 : Nat) ^ 8 ≤ 2 ^ i := Nat.pow_le_pow_right (by norm_num) (by omega)
    have hbi : b < 2 ^ i := lt_of_lt_of_le hb h2
    simp [hi, Nat.testBit_eq_false_of_lt hbi]

/-- Shifting a 16-bit-masked value right by 8 and masking with `0xFF`
gives the second byte. -/
theorem and255_shr8_and65535 (y : Nat) :
    ((y &&& 65535) >>> 8) &&& 255 = (y >>> 8) &&& 255 := by
  have h255 : (255 : Nat) = 2 ^ 8 - 1 := by norm_num
  have h65535 : (65535 : Nat) = 2 ^ 16 - 1 := by norm_num
  apply Nat.eq_of_testBit_eq
  intro i
  rw [h255, h65535]
  simp only [Nat.testBit_and, Nat.testBit_shiftRight, Nat.testBit_two_pow_sub_one]
  by_cases hi : i < 8
  · simp [hi, (by omega : 8 + i < 16)]
  · simp [hi]

/-- Masking a byte-sized value with `0xFF` is the identity. -/
theorem and255_of_lt (x : Nat) (h : x < 256) : x &&& 255 = x := by
  have h255 : (255 : Nat) = 2 ^ 8 - 1 := by norm_num
  apply Nat.eq_of_testBit_eq
  intro i
  rw [h255]
  simp only [Nat.testBit_and, Nat.testBit_two_pow_sub_one]
  by_cases hi : i < 8
  · simp [hi]
  · have h2 : (2 : Nat) ^ 8 ≤ 2 ^ i := Nat.pow_le_pow_right (by norm_num) (by omega)
    simp [hi, Nat.testBit_eq_false_of_lt (lt_of_lt_of_le h h2)]

theorem and255_and255 (x : Nat) : (x &&& 255) &&& 255 = x &&& 255 := by
  rw [Nat.and_assoc]
  rfl

theorem shr8_shr8 (x : Nat) : (x >>> 8) >>> 8 = x >>> 16 := by
  rw [← Nat.shiftRight_add]

/-- A channel whose subframe-1 and subframe-2 slots carry different
satellites is not complete. -/
theorem allReceived_false_sv01 (c : GPSChannel) (h : c.s0.sv ≠ c.s1.sv) :
    allGPSEphemReceived c = false := by
  simp only [allGPSEphemReceived]
  rw [beq_eq_false_iff_ne.mpr h]
  simp

/-- A channel whose subframe-1 and subframe-3 slots carry different
satellites is not complete. -/
theorem allReceived_false_sv02 (c : GPSChannel) (h : c.s0.sv ≠ c.s2.sv) :
    allGPSEphemReceived c = false := by
  simp only [allGPSEphemReceived]
  rw [beq_eq_false_iff_ne.mpr h]
  simp

/-- Storing one retained GPS subframe without completing the set: the
message is parity-clean, carries subframe id `i` (1..3), and after the
store the channel is still incomplete; the slots are updated and nothing
is emitted (GNSSdataFromOSP.cpp:672-698). -/
theorem processGPSSubframe_store (c : GPSChannel) (sv : Nat) (m : List Nat)
    (i : Nat) (hp : m.all checkGPSparity = true)
    (hid : ((m.map deparity).getD 1 0 >>> 2) &&& 0x7 = i)
    (h1 : 1 ≤ i) (h3 : i ≤ 3)
    (hnotall : allGPSEphemReceived (setSlot c (i - 1) ⟨sv, m.map deparity⟩) = false) :
    processGPSSubframe c sv m = (setSlot c (i - 1) ⟨sv, m.map deparity⟩, []) := by
  simp only [processGPSSubframe, hp, hid]
  rw [if_neg (by simp), if_pos (Or.inl ⟨by omega, by omega⟩), if_neg (by simp [hnotall])]

/-- Storing the last missing GPS subframe: after the store the channel is
complete, the ephemeris is extracted and emitted if consistent, and the
slots are cleared (GNSSdataFromOSP.cpp:677-698). -/
theorem processGPSSubframe_complete (c : GPSChannel) (sv : Nat) (m : List Nat)
    (i : Nat) (hp : m.all checkGPSparity = true)
    (hid : ((m.map deparity).getD 1 0 >>> 2) &&& 0x7 = i)
    (h1 : 1 ≤ i) (h3 : i ≤ 3)
    (hall : allGPSEphemReceived (setSlot c (i - 1) ⟨sv, m.map deparity⟩) = true) :
    processGPSSubframe c sv m =
      (clearChannel (setSlot c (i - 1) ⟨sv, m.map deparity⟩),
        match extractGPSEphemeris
            (packNavW (setSlot c (i - 1) ⟨sv, m.map deparity⟩) sv) with
        | some e => [e]
        | none => []) := by
  simp only [processGPSSubframe, hp, hid]
  rw [if_neg (by simp), if_pos (Or.inl ⟨by omega, by omega⟩), if_pos hall]
  rcases extractGPSEphemeris (packNavW (setSlot c (i - 1) ⟨sv, m.map deparity⟩) sv)
    with _ | e <;> rfl

/-- A channel holding subframes 1-3 of the same satellite with matching
IODC low byte and IODEs is complete. -/
theorem allReceived_true (sv : Nat) (d1 d2 d3 : List Nat) (s3 s4 : SubframeData)
    (hiod2 : ((d1.getD 7 0) >>> 16) &&& 0xFF = ((d2.getD 2 0) >>> 16) &&& 0xFF)
    (hiod3 : ((d1.getD 7 0) >>> 16) &&& 0xFF = ((d3.getD 9 0) >>> 16) &&& 0xFF) :
    allGPSEphemReceived ⟨⟨sv, d1⟩, ⟨sv, d2⟩, ⟨sv, d3⟩, s3, s4⟩ = true := by
  simp only [allGPSEphemReceived]
  rw [← hiod2, ← hiod3]
  simp

/-- A channel holding subframes 1-3 of the same satellite with clashing
IODC/IODE bytes is not complete. -/
theorem allReceived_iod_false (sv : Nat) (d1 d2 d3 : List Nat) (s3 s4 : SubframeData)
    (hne : ¬(((d1.getD 7 0) >>> 16) &&& 0xFF = ((d2.getD 2 0) >>> 16) &&& 0xFF ∧
             ((d1.getD 7 0) >>> 16) &&& 0xFF = ((d3.getD 9 0) >>> 16) &&& 0xFF)) :
    allGPSEphemReceived ⟨⟨sv, d1⟩, ⟨sv, d2⟩, ⟨sv, d3⟩, s3, s4⟩ = false := by
  rw [Bool.eq_false_iff]
  intro h
  simp only [allGPSEphemReceived, Bool.and_eq_true, beq_iff_eq] at h
  exact hne ⟨h.1.2, h.2⟩

/-- When the three subframe slots hold the same (byte-sized) satellite
and matching IODC/IODE bytes, the packed 45-word ephemeris passes the
consistency checks of `extractGPSEphemeris` and yields an emission. -/
theorem extractGPSEphemeris_some (sv : Nat) (d1 d2 d3 : List Nat)
    (s3 s4 : SubframeData) (hsv : sv < 256)
    (hiod2 : ((d1.getD 7 0) >>> 16) &&& 0xFF = ((d2.getD 2 0) >>> 16) &&& 0xFF)
    (hiod3 : ((d1.getD 7 0) >>> 16) &&& 0xFF = ((d3.getD 9 0) >>> 16) &&& 0xFF) :
    (extractGPSEphemeris
        (packNavW ⟨⟨sv, d1⟩, ⟨sv, d2⟩, ⟨sv, d3⟩, s3, s4⟩ sv)).isSome = true := by
  have hg0 : (packNavW ⟨⟨sv, d1⟩, ⟨sv, d2⟩, ⟨sv, d3⟩, s3, s4⟩ sv).getD 0 0 = sv := by
    simp [packNavW, packSubframe]
  have hg15 : (packNavW ⟨⟨sv, d1⟩, ⟨sv, d2⟩, ⟨sv, d3⟩, s3, s4⟩ sv).getD 15 0 = sv := by
    simp [packNavW, packSubframe]
  have hg30 : (packNavW ⟨⟨sv, d1⟩, ⟨sv, d2⟩, ⟨sv, d3⟩, s3, s4⟩ sv).getD 30 0 = sv := by
    simp [packNavW, packSubframe]
  have hg10 : (packNavW ⟨⟨sv, d1⟩, ⟨sv, d2⟩, ⟨sv, d3⟩, s3, s4⟩ sv).getD 10 0 =
      (((d1.getD 6 0) &&& 255) <<< 8) ||| (((d1.getD 7 0) >>> 16) &&& 255) := by
    simp [packNavW, packSubframe]
  have hg18 : (packNavW ⟨⟨sv, d1⟩, ⟨sv, d2⟩, ⟨sv, d3⟩, s3, s4⟩ sv).getD 18 0 =
      ((d2.getD 2 0) >>> 8) &&& 65535 := by
    simp [packNavW, packSubframe]
  have hg43 : (packNavW ⟨⟨sv, d1⟩, ⟨sv, d2⟩, ⟨sv, d3⟩, s3, s4⟩ sv).getD 43 0 =
      (((d3.getD 8 0) &&& 255) <<< 8) ||| (((d3.getD 9 0) >>> 16) &&& 255) := by
    simp [packNavW, packSubframe]
  have hb1 : ((d1.getD 7 0) >>> 16) &&& 255 < 256 := by
    have h : ((d1.getD 7 0) >>> 16) &&& 255 ≤ 255 := Nat.and_le_right
    omega
  have hb3 : ((d3.getD 9 0) >>> 16) &&& 255 < 256 := by
    have h : ((d3.getD 9 0) >>> 16) &&& 255 ≤ 255 := Nat.and_le_right
    omega
  simp only [extractGPSEphemeris, hg0, hg15, hg30, hg10, hg18, hg43]
  rw [and255_of_lt sv hsv, and255_or_shl8 _ _ hb1, and255_or_shl8 _ _ hb3,
    and255_shr8_and65535, shr8_shr8]
  rw [if_neg (by simp)]
  rw [if_neg (by
    rw [← hiod2, ← hiod3]
    simp)]
  rfl

/-- C1: feeding the GPS nav-subframe assembler of one channel the three
GPS subframes 1, 2 and 3 in any order — parity-clean, all tagged with the
same PRN, with the IODC low byte of subframe 1 equal to the IODE bytes of
subframes 2 and 3 — produces exactly one ephemeris emission (one
`saveNavData` call), after which the channel's subframe slots are all
cleared (satellite number 0); with mismatched IODC/IODE bytes, zero
emissions are produced. -/
theorem c1_gps_ephem_completion :
    ∀ (c0 : GPSChannel) (sv : Nat) (m1 m2 m3 : List Nat)
      (msgs : List (Nat × List Nat)),
      channelCleared c0 → 1 ≤ sv → sv ≤ 32 →
      m1.all checkGPSparity = true → m2.all checkGPSparity = true →
      m3.all checkGPSparity = true →
      ((m1.map deparity).getD 1 0 >>> 2) &&& 0x7 = 1 →
      ((m2.map deparity).getD 1 0 >>> 2) &&& 0x7 = 2 →
      ((m3.map deparity).getD 1 0 >>> 2) &&& 0x7 = 3 →
      (msgs = [(sv, m1), (sv, m2), (sv, m3)] ∨
       msgs = [(sv, m1), (sv, m3), (sv, m2)] ∨
       msgs = [(sv, m2), (sv, m1), (sv, m3)] ∨
       msgs = [(sv, m2), (sv, m3), (sv, m1)] ∨
       msgs = [(sv, m3), (sv, m1), (sv, m2)] ∨
       msgs = [(sv, m3), (sv, m2), (sv, m1)]) →
      ((((m1.map deparity).getD 7 0 >>> 16) &&& 0xFF =
          ((m2.map deparity).getD 2 0 >>> 16) &&& 0xFF ∧
        ((m1.map deparity).getD 7 0 >>> 16) &&& 0xFF =
          ((m3.map deparity).getD 9 0 >>> 16) &&& 0xFF) →
        (runGPSChannel c0 msgs).2.length = 1 ∧
          channelCleared (runGPSChannel c0 msgs).1) ∧
      (¬(((m1.map deparity).getD 7 0 >>> 16) &&& 0xFF =
          ((m2.map deparity).getD 2 0 >>> 16) &&& 0xFF ∧
        ((m1.map deparity).getD 7 0 >>> 16) &&& 0xFF =
          ((m3.map deparity).getD 9 0 >>> 16) &&& 0xFF) →
        (runGPSChannel c0 msgs).2 = []) := by
  intro c0 sv m1 m2 m3 msgs hc hsv1 hsv32 hp1 hp2 hp3 hid1 hid2 hid3 horder
  obtain ⟨⟨sv0, w0⟩, ⟨sv1, w1⟩, ⟨sv2, w2⟩, ⟨sv3, w3⟩, ⟨sv4, w4⟩⟩ := c0
  obtain ⟨h0, h1, h2, h3, h4⟩ := hc
  simp only at h0 h1 h2 h3 h4
  subst h0 h1 h2 h3 h4
  rcases horder with horder | horder | horder | horder | horder | horder
  · subst horder
    have h1 : processGPSSubframe ⟨⟨0, w0⟩, ⟨0, w1⟩, ⟨0, w2⟩, ⟨0, w3⟩, ⟨0, w4⟩⟩ sv m1 = (⟨⟨sv, m1.map deparity⟩, ⟨0, w1⟩, ⟨0, w2⟩, ⟨0, w3⟩, ⟨0, w4⟩⟩, []) := by
      have h := processGPSSubframe_store ⟨⟨0, w0⟩, ⟨0, w1⟩, ⟨0, w2⟩, ⟨0, w3⟩, ⟨0, w4⟩⟩ sv m1 1 hp1 hid1
        (by omega) (by omega) (allReceived_false_sv01 _ (by simp [setSlot]; omega))
      simpa [setSlot] using h
    have h2 : processGPSSubframe ⟨⟨sv, m1.map deparity⟩, ⟨0, w1⟩, ⟨0, w2⟩, ⟨0, w3⟩, ⟨0, w4⟩⟩ sv m2 = (⟨⟨sv, m1.map deparity⟩, ⟨sv, m2.map deparity⟩, ⟨0, w2⟩, ⟨0, w3⟩, ⟨0, w4⟩⟩, []) := by
      have h := processGPSSubframe_store ⟨⟨sv, m1.map deparity⟩, ⟨0, w1⟩, ⟨0, w2⟩, ⟨0, w3⟩, ⟨0, w4⟩⟩ sv m2 2 hp2 hid2
        (by omega) (by omega) (allReceived_false_sv02 _ (by simp [setSlot]; omega))
      simpa [setSlot] using h
    constructor
    · rintro ⟨hiod2, hiod3⟩
      have hall : allGPSEphemReceived
          (setSlot ⟨⟨sv, m1.map deparity⟩, ⟨sv, m2.map deparity⟩, ⟨0, w2⟩, ⟨0, w3⟩, ⟨0, w4⟩⟩ (3 - 1) ⟨sv, m3.map deparity⟩) = true := by
        simp only [setSlot]
        exact allReceived_true sv (m1.map deparity) (m2.map deparity)
          (m3.map deparity) ⟨0, w3⟩ ⟨0, w4⟩ hiod2 hiod3
      have h3 := processGPSSubframe_complete ⟨⟨sv, m1.map deparity⟩, ⟨sv, m2.map deparity⟩, ⟨0, w2⟩, ⟨0, w3⟩, ⟨0, w4⟩⟩ sv m3 3 hp3 hid3
        (by omega) (by omega) hall
      simp only [setSlot] at h3
      obtain ⟨e, he⟩ := Option.isSome_iff_exists.mp
        (extractGPSEphemeris_some sv (m1.map deparity) (m2.map deparity)
          (m3.map deparity) ⟨0, w3⟩ ⟨0, w4⟩ (by omega) hiod2 hiod3)
      refine ⟨?_, ?_⟩ <;>
        simp [runGPSChannel, h1, h2, h3, he, clearChannel, channelCleared]
    · intro hne
      have hnall : allGPSEphemReceived
          (setSlot ⟨⟨sv, m1.map deparity⟩, ⟨sv, m2.map deparity⟩, ⟨0, w2⟩, ⟨0, w3⟩, ⟨0, w4⟩⟩ (3 - 1) ⟨sv, m3.map deparity⟩) = false := by
        simp only [setSlot]
        exact allReceived_iod_false sv (m1.map deparity) (m2.map deparity)
          (m3.map deparity) ⟨0, w3⟩ ⟨0, w4⟩ hne
      have h3 := processGPSSubframe_store ⟨⟨sv, m1.map deparity⟩, ⟨sv, m2.map deparity⟩, ⟨0, w2⟩, ⟨0, w3⟩, ⟨0, w4⟩⟩ sv m3 3 hp3 hid3
        (by omega) (by omega) hnall
      simp [runGPSChannel, h1, h2, h3]
  · subst horder
    have h1 : processGPSSubframe ⟨⟨0, w0⟩, ⟨0, w1⟩, ⟨0, w2⟩, ⟨0, w3⟩, ⟨0, w4⟩⟩ sv m1 = (⟨⟨sv, m1.map deparity⟩, ⟨0, w1⟩, ⟨0, w2⟩, ⟨0, w3⟩, ⟨0, w4⟩⟩, []) := by
      have h := processGPSSubframe_store ⟨⟨0, w0⟩, ⟨0, w1⟩, ⟨0, w2⟩, ⟨0, w3⟩, ⟨0, w4⟩⟩ sv m1 1 hp1 hid1
        (by omega) (by omega) (allReceived_false_sv01 _ (by simp [setSlot]; omega))
      simpa [setSlot] using h
    have h2 : processGPSSubframe ⟨⟨sv, m1.map deparity⟩, ⟨0, w1⟩, ⟨0, w2⟩, ⟨0, w3⟩, ⟨0, w4⟩⟩ sv m3 = (⟨⟨sv, m1.map deparity⟩, ⟨0, w1⟩, ⟨sv, m3.map deparity⟩, ⟨0, w3⟩, ⟨0, w4⟩⟩, []) := by
      have h := processGPSSubframe_store ⟨⟨sv, m1.map deparity⟩, ⟨0, w1⟩, ⟨0, w2⟩, ⟨0, w3⟩, ⟨0, w4⟩⟩ sv m3 3 hp3 hid3
        (by omega) (by omega) (allReceived_false_sv01 _ (by simp [setSlot]; omega))
      simpa [setSlot] using h
    constructor
    · rintro ⟨hiod2, hiod3⟩
      have hall : allGPSEphemReceived
          (setSlot ⟨⟨sv, m1.map deparity⟩, ⟨0, w1⟩, ⟨sv, m3.map deparity⟩, ⟨0, w3⟩, ⟨0, w4⟩⟩ (2 - 1) ⟨sv, m2.map deparity⟩) = true := by
        simp only [setSlot]
        exact allReceived_true sv (m1.map deparity) (m2.map deparity)
          (m3.map deparity) ⟨0, w3⟩ ⟨0, w4⟩ hiod2 hiod3
      have h3 := processGPSSubframe_complete ⟨⟨sv, m1.map deparity⟩, ⟨0, w1⟩, ⟨sv, m3.map deparity⟩, ⟨0, w3⟩, ⟨0, w4⟩⟩ sv m2 2 hp2 hid2
        (by omega) (by omega) hall
      simp only [setSlot] at h3
      obtain ⟨e, he⟩ := Option.isSome_iff_exists.mp
        (extractGPSEphemeris_some sv (m1.map deparity) (m2.map deparity)
          (m3.map deparity) ⟨0, w3⟩ ⟨0, w4⟩ (by omega) hiod2 hiod3)
      refine ⟨?_, ?_⟩ <;>
        simp [runGPSChannel, h1, h2, h3, he, clearChannel, channelCleared]
    · intro hne
      have hnall : allGPSEphemReceived
          (setSlot ⟨⟨sv, m1.map deparity⟩, ⟨0, w1⟩, ⟨sv, m3.map deparity⟩, ⟨0, w3⟩, ⟨0, w4⟩⟩ (2 - 1) ⟨sv, m2.map deparity⟩) = false := by
        simp only [setSlot]
        exact allReceived_iod_false sv (m1.map deparity) (m2.map deparity)
          (m3.map deparity) ⟨0, w3⟩ ⟨0, w4⟩ hne
      have h3 := processGPSSubframe_store ⟨⟨sv, m1.map deparity⟩, ⟨0, w1⟩, ⟨sv, m3.map deparity⟩, ⟨0, w3⟩, ⟨0, w4⟩⟩ sv m2 2 hp2 hid2
        (by omega) (by omega) hnall
      simp [runGPSChannel, h1, h2, h3]
  · subst horder
    have h1 : processGPSSubframe ⟨⟨0, w0⟩, ⟨0, w1⟩, ⟨0, w2⟩, ⟨0, w3⟩, ⟨0, w4⟩⟩ sv m2 = (⟨⟨0, w0⟩, ⟨sv, m2.map deparity⟩, ⟨0, w2⟩, ⟨0, w3⟩, ⟨0, w4⟩⟩, []) := by
      have h := processGPSSubframe_store ⟨⟨0, w0⟩, ⟨0, w1⟩, ⟨0, w2⟩, ⟨0, w3⟩, ⟨0, w4⟩⟩ sv m2 2 hp2 hid2
        (by omega) (by omega) (allReceived_false_sv01 _ (by simp [setSlot]; omega))
      simpa [setSlot] using h
    have h2 : processGPSSubframe ⟨⟨0, w0⟩, ⟨sv, m2.map deparity⟩, ⟨0, w2⟩, ⟨0, w3⟩, ⟨0, w4⟩⟩ sv m1 = (⟨⟨sv, m1.map deparity⟩, ⟨sv, m2.map deparity⟩, ⟨0, w2⟩, ⟨0, w3⟩, ⟨0, w4⟩⟩, []) := by
      have h := processGPSSubframe_store ⟨⟨0, w0⟩, ⟨sv, m2.map deparity⟩, ⟨0, w2⟩, ⟨0, w3⟩, ⟨0, w4⟩⟩ sv m1 1 hp1 hid1
        (by omega) (by omega) (allReceived_false_sv02 _ (by simp [setSlot]; omega))
      simpa [setSlot] using h
    constructor
    · rintro ⟨hiod2, hiod3⟩
      have hall : allGPSEphemReceived
          (setSlot ⟨⟨sv, m1.map deparity⟩, ⟨sv, m2.map deparity⟩, ⟨0, w2⟩, ⟨0, w3⟩, ⟨0, w4⟩⟩ (3 - 1) ⟨sv, m3.map deparity⟩) = true := by
        simp only [setSlot]
        exact allReceived_true sv (m1.map deparity) (m2.map deparity)
          (m3.map deparity) ⟨0, w3⟩ ⟨0, w4⟩ hiod2 hiod3
      have h3 := processGPSSubframe_complete ⟨⟨sv, m1.map deparity⟩, ⟨sv, m2.map deparity⟩, ⟨0, w2⟩, ⟨0, w3⟩, ⟨0, w4⟩⟩ sv m3 3 hp3 hid3
        (by omega) (by omega) hall
      simp only [setSlot] at h3
      obtain ⟨e, he⟩ := Option.isSome_iff_exists.mp
        (extractGPSEphemeris_some sv (m1.map deparity) (m2.map deparity)
          (m3.map deparity) ⟨0, w3⟩ ⟨0, w4⟩ (by omega) hiod2 hiod3)
      refine ⟨?_, ?_⟩ <;>
        simp [runGPSChannel, h1, h2, h3, he, clearChannel, channelCleared]
    · intro hne
      have hnall : allGPSEphemReceived
          (setSlot ⟨⟨sv, m1.map deparity⟩, ⟨sv, m2.map deparity⟩, ⟨0, w2⟩, ⟨0, w3⟩, ⟨0, w4⟩⟩ (3 - 1) ⟨sv, m3.map deparity⟩) = false := by
        simp only [setSlot]
        exact allReceived_iod_false sv (m1.map deparity) (m2.map deparity)
          (m3.map deparity) ⟨0, w3⟩ ⟨0, w4⟩ hne
      have h3 := processGPSSubframe_store ⟨⟨sv, m1.map deparity⟩, ⟨sv, m2.map deparity⟩, ⟨0, w2⟩, ⟨0, w3⟩, ⟨0, w4⟩⟩ sv m3 3 hp3 hid3
        (by omega) (by omega) hnall
      simp [runGPSChannel, h1, h2, h3]
  · subst horder
    have h1 : processGPSSubframe ⟨⟨0, w0⟩, ⟨0, w1⟩, ⟨0, w2⟩, ⟨0, w3⟩, ⟨0, w4⟩⟩ sv m2 = (⟨⟨0, w0⟩, ⟨sv, m2.map deparity⟩, ⟨0, w2⟩, ⟨0, w3⟩, ⟨0, w4⟩⟩, []) := by
      have h := processGPSSubframe_store ⟨⟨0, w0⟩, ⟨0, w1⟩, ⟨0, w2⟩, ⟨0, w3⟩, ⟨0, w4⟩⟩ sv m2 2 hp2 hid2
        (by omega) (by omega) (allReceived_false_sv01 _ (by simp [setSlot]; omega))
      simpa [setSlot] using h
    have h2 : processGPSSubframe ⟨⟨0, w0⟩, ⟨sv, m2.map deparity⟩, ⟨0, w2⟩, ⟨0, w3⟩, ⟨0, w4⟩⟩ sv m3 = (⟨⟨0, w0⟩, ⟨sv, m2.map deparity⟩, ⟨sv, m3.map deparity⟩, ⟨0, w3⟩, ⟨0, w4⟩⟩, []) := by
      have h := processGPSSubframe_store ⟨⟨0, w0⟩, ⟨sv, m2.map deparity⟩, ⟨0, w2⟩, ⟨0, w3⟩, ⟨0, w4⟩⟩ sv m3 3 hp3 hid3
        (by omega) (by omega) (allReceived_false_sv01 _ (by simp [setSlot]; omega))
      simpa [setSlot] using h
    constructor
    · rintro ⟨hiod2, hiod3⟩
      have hall : allGPSEphemReceived
          (setSlot ⟨⟨0, w0⟩, ⟨sv, m2.map deparity⟩, ⟨sv, m3.map deparity⟩, ⟨0, w3⟩, ⟨0, w4⟩⟩ (1 - 1) ⟨sv, m1.map deparity⟩) = true := by
        simp only [setSlot]
        exact allReceived_true sv (m1.map deparity) (m2.map deparity)
          (m3.map deparity) ⟨0, w3⟩ ⟨0, w4⟩ hiod2 hiod3
      have h3 := processGPSSubframe_complete ⟨⟨0, w0⟩, ⟨sv, m2.map deparity⟩, ⟨sv, m3.map deparity⟩, ⟨0, w3⟩, ⟨0, w4⟩⟩ sv m1 1 hp1 hid1
        (by omega) (by omega) hall
      simp only [setSlot] at h3
      obtain ⟨e, he⟩ := Option.isSome_iff_exists.mp
        (extractGPSEphemeris_some sv (m1.map deparity) (m2.map deparity)
          (m3.map deparity) ⟨0, w3⟩ ⟨0, w4⟩ (by omega) hiod2 hiod3)
      refine ⟨?_, ?_⟩ <;>
        simp [runGPSChannel, h1, h2, h3, he, clearChannel, channelCleared]
    · intro hne
      have hnall : allGPSEphemReceived
          (setSlot ⟨⟨0, w0⟩, ⟨sv, m2.map deparity⟩, ⟨sv, m3.map deparity⟩, ⟨0, w3⟩, ⟨0, w4⟩⟩ (1 - 1) ⟨sv, m1.map deparity⟩) = false := by
        simp only [setSlot]
        exact allReceived_iod_false sv (m1.map deparity) (m2.map deparity)
          (m3.map deparity) ⟨0, w3⟩ ⟨0, w4⟩ hne
      have h3 := processGPSSubframe_store ⟨⟨0, w0⟩, ⟨sv, m2.map deparity⟩, ⟨sv, m3.map deparity⟩, ⟨0, w3⟩, ⟨0, w4⟩⟩ sv m1 1 hp1 hid1
        (by omega) (by omega) hnall
      simp [runGPSChannel, h1, h2, h3]
  · subst horder
    have h1 : processGPSSubframe ⟨⟨0, w0⟩, ⟨0, w1⟩, ⟨0, w2⟩, ⟨0, w3⟩, ⟨0, w4⟩⟩ sv m3 = (⟨⟨0, w0⟩, ⟨0, w1⟩, ⟨sv, m3.map deparity⟩, ⟨0, w3⟩, ⟨0, w4⟩⟩, []) := by
      have h := processGPSSubframe_store ⟨⟨0, w0⟩, ⟨0, w1⟩, ⟨0, w2⟩, ⟨0, w3⟩, ⟨0, w4⟩⟩ sv m3 3 hp3 hid3
        (by omega) (by omega) (allReceived_false_sv02 _ (by simp [setSlot]; omega))
      simpa [setSlot] using h
    have h2 : processGPSSubframe ⟨⟨0, w0⟩, ⟨0, w1⟩, ⟨sv, m3.map deparity⟩, ⟨0, w3⟩, ⟨0, w4⟩⟩ sv m1 = (⟨⟨sv, m1.map deparity⟩, ⟨0, w1⟩, ⟨sv, m3.map deparity⟩, ⟨0, w3⟩, ⟨0, w4⟩⟩, []) := by
      have h := processGPSSubframe_store ⟨⟨0, w0⟩, ⟨0, w1⟩, ⟨sv, m3.map deparity⟩, ⟨0, w3⟩, ⟨0, w4⟩⟩ sv m1 1 hp1 hid1
        (by omega) (by omega) (allReceived_false_sv01 _ (by simp [setSlot]; omega))
      simpa [setSlot] using h
    constructor
    · rintro ⟨hiod2, hiod3⟩
      have hall : allGPSEphemReceived
          (setSlot ⟨⟨sv, m1.map deparity⟩, ⟨0, w1⟩, ⟨sv, m3.map deparity⟩, ⟨0, w3⟩, ⟨0, w4⟩⟩ (2 - 1) ⟨sv, m2.map deparity⟩) = true := by
        simp only [setSlot]
        exact allReceived_true sv (m1.map deparity) (m2.map deparity)
          (m3.map deparity) ⟨0, w3⟩ ⟨0, w4⟩ hiod2 hiod3
      have h3 := processGPSSubframe_complete ⟨⟨sv, m1.map deparity⟩, ⟨0, w1⟩, ⟨sv, m3.map deparity⟩, ⟨0, w3⟩, ⟨0, w4⟩⟩ sv m2 2 hp2 hid2
        (by omega) (by omega) hall
      simp only [setSlot] at h3
      obtain ⟨e, he⟩ := Option.isSome_iff_exists.mp
        (extractGPSEphemeris_some sv (m1.map deparity) (m2.map deparity)
          (m3.map deparity) ⟨0, w3⟩ ⟨0, w4⟩ (by omega) hiod2 hiod3)
      refine ⟨?_, ?_⟩ <;>
        simp [runGPSChannel, h1, h2, h3, he, clearChannel, channelCleared]
    · intro hne
      have hnall : allGPSEphemReceived
          (setSlot ⟨⟨sv, m1.map deparity⟩, ⟨0, w1⟩, ⟨sv, m3.map deparity⟩, ⟨0, w3⟩, ⟨0, w4⟩⟩ (2 - 1) ⟨sv, m2.map deparity⟩) = false := by
        simp only [setSlot]
        exact allReceived_iod_false sv (m1.map deparity) (m2.map deparity)
          (m3.map deparity) ⟨0, w3⟩ ⟨0, w4⟩ hne
      have h3 := processGPSSubframe_store ⟨⟨sv, m1.map deparity⟩, ⟨0, w1⟩, ⟨sv, m3.map deparity⟩, ⟨0, w3⟩, ⟨0, w4⟩⟩ sv m2 2 hp2 hid2
        (by omega) (by omega) hnall
      simp [runGPSChannel, h1, h2, h3]
  · subst horder
    have h1 : processGPSSubframe ⟨⟨0, w0⟩, ⟨0, w1⟩, ⟨0, w2⟩, ⟨0, w3⟩, ⟨0, w4⟩⟩ sv m3 = (⟨⟨0, w0⟩, ⟨0, w1⟩, ⟨sv, m3.map deparity⟩, ⟨0, w3⟩, ⟨0, w4⟩⟩, []) := by
      have h := processGPSSubframe_store ⟨⟨0, w0⟩, ⟨0, w1⟩, ⟨0, w2⟩, ⟨0, w3⟩, ⟨0, w4⟩⟩ sv m3 3 hp3 hid3
        (by omega) (by omega) (allReceived_false_sv02 _ (by simp [setSlot]; omega))
      simpa [setSlot] using h
    have h2 : processGPSSubframe ⟨⟨0, w0⟩, ⟨0, w1⟩, ⟨sv, m3.map deparity⟩, ⟨0, w3⟩, ⟨0, w4⟩⟩ sv m2 = (⟨⟨0, w0⟩, ⟨sv, m2.map deparity⟩, ⟨sv, m3.map deparity⟩, ⟨0, w3⟩, ⟨0, w4⟩⟩, []) := by
      have h := processGPSSubframe_store ⟨⟨0, w0⟩, ⟨0, w1⟩, ⟨sv, m3.map deparity⟩, ⟨0, w3⟩, ⟨0, w4⟩⟩ sv m2 2 hp2 hid2
        (by omega) (by omega) (allReceived_false_sv01 _ (by simp [setSlot]; omega))
      simpa [setSlot] using h
    constructor
    · rintro ⟨hiod2, hiod3⟩
      have hall : allGPSEphemReceived
          (setSlot ⟨⟨0, w0⟩, ⟨sv, m2.map deparity⟩, ⟨sv, m3.map deparity⟩, ⟨0, w3⟩, ⟨0, w4⟩⟩ (1 - 1) ⟨sv, m1.map deparity⟩) = true := by
        simp only [setSlot]
        exact allReceived_true sv (m1.map deparity) (m2.map deparity)
          (m3.map deparity) ⟨0, w3⟩ ⟨0, w4⟩ hiod2 hiod3
      have h3 := processGPSSubframe_complete ⟨⟨0, w0⟩, ⟨sv, m2.map deparity⟩, ⟨sv, m3.map deparity⟩, ⟨0, w3⟩, ⟨0, w4⟩⟩ sv m1 1 hp1 hid1
        (by omega) (by omega) hall
      simp only [setSlot] at h3
      obtain ⟨e, he⟩ := Option.isSome_iff_exists.mp
        (extractGPSEphemeris_some sv (m1.map deparity) (m2.map deparity)
          (m3.map deparity) ⟨0, w3⟩ ⟨0, w4⟩ (by omega) hiod2 hiod3)
      refine ⟨?_, ?_⟩ <;>
        simp [runGPSChannel, h1, h2, h3, he, clearChannel, channelCleared]
    · intro hne
      have hnall : allGPSEphemReceived
          (setSlot ⟨⟨0, w0⟩, ⟨sv, m2.map deparity⟩, ⟨sv, m3.map deparity⟩, ⟨0, w3⟩, ⟨0, w4⟩⟩ (1 - 1) ⟨sv, m1.map deparity⟩) = false := by
        simp only [setSlot]
        exact allReceived_iod_false sv (m1.map deparity) (m2.map deparity)
          (m3.map deparity) ⟨0, w3⟩ ⟨0, w4⟩ hne
      have h3 := processGPSSubframe_store ⟨⟨0, w0⟩, ⟨sv, m2.map deparity⟩, ⟨sv, m3.map deparity⟩, ⟨0, w3⟩, ⟨0, w4⟩⟩ sv m1 1 hp1 hid1
        (by omega) (by omega) hnall
      simp [runGPSChannel, h1, h2, h3]

/-- C1 witness: subframes 1, 2, 3 for PRN 7 (parity-clean words, IODC
low byte `0x55` matching both IODEs) fed in the order 2, 1, 3 produce
exactly one emission and leave the channel slots cleared. -/
theorem c1_gps_ephem_completion_witness :
    (runGPSChannel ⟨⟨0, []⟩, ⟨0, []⟩, ⟨0, []⟩, ⟨0, []⟩, ⟨0, []⟩⟩
        [(7, [0, 534, 356515858, 0, 0, 0, 0, 0, 0, 0]),
         (7, [0, 267, 0, 0, 0, 0, 0, 356515858, 0, 0]),
         (7, [0, 797, 0, 0, 0, 0, 0, 0, 0, 356515858])]).2.length = 1 ∧
    channelCleared (runGPSChannel ⟨⟨0, []⟩, ⟨0, []⟩, ⟨0, []⟩, ⟨0, []⟩, ⟨0, []⟩⟩
        [(7, [0, 534, 356515858, 0, 0, 0, 0, 0, 0, 0]),
         (7, [0, 267, 0, 0, 0, 0, 0, 356515858, 0, 0]),
         (7, [0, 797, 0, 0, 0, 0, 0, 0, 0, 356515858])]).1 :=
  (c1_gps_ephem_completion ⟨⟨0, []⟩, ⟨0, []⟩, ⟨0, []⟩, ⟨0, []⟩, ⟨0, []⟩⟩ 7
    [0, 267, 0, 0, 0, 0, 0, 356515858, 0, 0]
    [0, 534, 356515858, 0, 0, 0, 0, 0, 0, 0]
    [0, 797, 0, 0, 0, 0, 0, 0, 0, 356515858]
    [(7, [0, 534, 356515858, 0, 0, 0, 0, 0, 0, 0]),
     (7, [0, 267, 0, 0, 0, 0, 0, 356515858, 0, 0]),
     (7, [0, 797, 0, 0, 0, 0, 0, 0, 0, 356515858])]
    ⟨rfl, rfl, rfl, rfl, rfl⟩ (by decide) (by decide) (by decide) (by decide)
    (by decide) (by decide) (by decide) (by decide)
    (Or.inr (Or.inr (Or.inl rfl)))).1 (by decide)

end RXtoRINEX
